import Mathlib

/-!
Shallow embedding of the subscription/billing reconciliation core of the
repository (`app/api/routes/checkout.py`) together with the entity model it
operates on (`app/models.py`).

Modelling conventions:
* The relational store is a `Store` record of entity lists; `session.exec(
  select(X).where(...)).first()` becomes `List.find?`, `session.add` becomes
  appending to the list, in-place ORM mutation followed by `session.commit()`
  becomes replacing the first matching element (`updateFirst`).
* JSON payload fields are `Option` values (`none` = field absent).  Python
  attribute access on `None` (an `AttributeError`, surfaced by the framework
  as an HTTP 500) is modelled by the `Except` error branch.
* Python truthiness on optional strings (`if val:`) is `truthy`.
* `datetime` values are abstracted as `Nat`; the library parser
  `dateutil.parser.isoparse` (which raises on bad input) is a function
  parameter `isoparse : String → Option Nat` (`none` = raise).
* `hmac.new(secret, body, sha256).hexdigest()` is a function parameter
  `hmacSha256Hex : String → String → String`; `hmac.compare_digest` is
  functionally string equality (its constant-time behaviour is a timing
  property of the library call, outside this embedding).
-/

namespace Checkout

/-- Timestamps abstracted as natural numbers. -/
abbrev DateTime := Nat

/-- Python truthiness of an optional string: `None` and `""` are falsy. -/
def truthy : Option String → Bool
  | none => false
  | some s => !(s == "")

/-- Python `a or b` on optional strings: first truthy operand. -/
def pyOr (a b : Option String) : Option String :=
  if truthy a then a else b

/-- `app.models.User` (the fields the checkout module reads or compares). -/
structure User where
  id : String
  email : String
  lemon_customer_id : Option String := none
  full_name : Option String := none
deriving DecidableEq, Repr

/-- `app.models.SubscriptionPlan` (the fields the checkout module uses). -/
structure SubscriptionPlan where
  id : String
  code : String
  lemon_variant_id : Option String := none
deriving DecidableEq, Repr

/-- `app.models.UserSubscription`. -/
structure UserSubscription where
  id : String
  user_id : String
  subscription_plan_id : String
  lemon_subscription_id : Option String := none
  status : Option String := none
  start_date : Option DateTime := none
  current_period_end : Option DateTime := none
  cancel_at_period_end : Bool := false
  canceled_at : Option DateTime := none
  trial_end : Option DateTime := none
deriving DecidableEq, Repr

/-- `app.models.Payment`. -/
structure Payment where
  id : String
  user_id : Option String := none
  user_subscription_id : Option String := none
  lemon_order_id : Option String := none
  amount_in_cents : Option Int := none
  currency : String := "usd"
  status : String
  paid_at : Option DateTime := none
  receipt_url : Option String := none
deriving DecidableEq, Repr

/-- The relational store; `nextId` is the source of fresh primary keys. -/
structure Store where
  users : List User := []
  plans : List SubscriptionPlan := []
  subs : List UserSubscription := []
  payments : List Payment := []
  nextId : Nat := 0
deriving DecidableEq, Repr

/-- Fresh primary key for a newly inserted row. -/
def freshId (s : Store) : String := "row" ++ toString s.nextId

/-- Replace the first element satisfying `p` by its image under `f`
(ORM semantics of mutating the single object returned by `.first()`). -/
def updateFirst {α : Type} (l : List α) (p : α → Bool) (f : α → α) : List α :=
  match l with
  | [] => []
  | x :: xs => if p x then f x :: xs else x :: updateFirst xs p f

/-- `meta.custom_data` object of the webhook payload. -/
structure CustomData where
  user_id : Option String := none
deriving DecidableEq, Repr

/-- `data.attributes.first_subscription_item` object. -/
structure FirstSubItem where
  subscription_id : Option String := none
deriving DecidableEq, Repr

/-- `data.attributes.urls` object. -/
structure Urls where
  invoice_url : Option String := none
deriving DecidableEq, Repr

/-- `data.attributes` of the webhook payload (the fields the handler reads). -/
structure Attributes where
  customer_id : Option String := none
  user_email : Option String := none
  variant_id : Option String := none
  subscription_id : Option String := none
  order_id : Option String := none
  status : Option String := none
  created_at : Option String := none
  renews_at : Option String := none
  trial_ends_at : Option String := none
  total : Option Int := none
  currency : Option String := none
  id : Option String := none
  first_subscription_item : Option FirstSubItem := none
  urls : Option Urls := none
deriving DecidableEq, Repr

/-- `meta` envelope of the webhook payload. -/
structure Meta where
  event_name : Option String := none
  custom_data : Option CustomData := none
deriving DecidableEq, Repr

/-- `data` envelope of the webhook payload. -/
structure PayloadData where
  attributes : Option Attributes := none
deriving DecidableEq, Repr

/-- Parsed JSON body of a webhook request. -/
structure Payload where
  meta : Option Meta := none
  data : Option PayloadData := none
deriving DecidableEq, Repr

/-- `payload.get("meta", \x7b\x7d).get("event_name")`. -/
def payloadEventName (p : Payload) : Option String :=
  match p.meta with
  | some m => m.event_name
  | none => none

/-- `payload.get("meta", \x7b\x7d).get("custom_data")`; `none` means the
subsequent `.get("user_id")` raises `AttributeError`. -/
def payloadCustomData (p : Payload) : Option CustomData :=
  match p.meta with
  | some m => m.custom_data
  | none => none

/-- `payload.get("data", \x7b\x7d).get("attributes", \x7b\x7d)`. -/
def payloadAttrs (p : Payload) : Attributes :=
  match p.data with
  | some d =>
    match d.attributes with
    | some a => a
    | none => {}
  | none => {}

/-- `parse_dt` from `checkout.py` (lines 181-187): truthiness guard, then the
library parse with failures converted to `None`. -/
def parse_dt (isoparse : String → Option DateTime) : Option String → Option DateTime
  | some v => if v == "" then none else isoparse v
  | none => none

/-- `find_user` from `checkout.py` (lines 190-200): id, then external customer
id, then email, each lookup only attempted when its input is truthy and the
previous lookups failed. -/
def find_user (users : List User) (user_id lemon_customer_id user_email : Option String) :
    Option User :=
  let user : Option User :=
    if truthy user_id then users.find? (fun u => some u.id == user_id) else none
  let user : Option User :=
    if user.isNone && truthy lemon_customer_id then
      users.find? (fun u => u.lemon_customer_id == lemon_customer_id)
    else user
  let user : Option User :=
    if user.isNone && truthy user_email then
      users.find? (fun u => some u.email == user_email)
    else user
  user

/-- The repeated pattern `session.exec(select(UserSubscription).where(
UserSubscription.lemon_subscription_id == subscription_id)).first() if
subscription_id else None`. -/
def lookupSubscription (subs : List UserSubscription) (sid : Option String) :
    Option UserSubscription :=
  if truthy sid then subs.find? (fun sb => sb.lemon_subscription_id == sid) else none

/-- Response bodies the handler returns with HTTP 200. -/
inductive Resp
  | ok
  | ignored
  | err (msg : String)
deriving DecidableEq, Repr

/-- The field assignments shared by both arms of the `subscription_created`
branch (constructor arguments resp. in-place overwrites). -/
def applyCreatedFields (isoparse : String → Option DateTime) (data : Attributes)
    (planId : String) (subscription_id : Option String) (sb : UserSubscription) :
    UserSubscription :=
  { sb with
      subscription_plan_id := planId
      lemon_subscription_id := subscription_id
      status := data.status
      start_date := parse_dt isoparse data.created_at
      current_period_end := parse_dt isoparse data.renews_at
      trial_end := parse_dt isoparse data.trial_ends_at }

/-- The `UserSubscription(...)` constructed at lines 255-263. -/
def newSubscriptionRow (isoparse : String → Option DateTime) (data : Attributes)
    (plan : SubscriptionPlan) (subscription_id : Option String) (user : User)
    (s : Store) : UserSubscription :=
  applyCreatedFields isoparse data plan.id subscription_id
    { id := freshId s, user_id := user.id, subscription_plan_id := plan.id }

/-- `subscription_created` branch (lines 235-275). -/
def handleSubscriptionCreated (isoparse : String → Option DateTime) (data : Attributes)
    (user? : Option User) (s : Store) : Except String (Resp × Store) :=
  match data.first_subscription_item with
  | none => .error "AttributeError"
  | some fsi =>
    let subscription_id := fsi.subscription_id
    match s.plans.find? (fun p => p.lemon_variant_id == data.variant_id) with
    | none => .ok (.err "Plan not found", s)
    | some plan =>
      match user? with
      | none => .ok (.err "User not found", s)
      | some user =>
        match s.subs.find? (fun sb => sb.user_id == user.id) with
        | none =>
          let newSub := newSubscriptionRow isoparse data plan subscription_id user s
          .ok (.ok, { s with subs := s.subs ++ [newSub], nextId := s.nextId + 1 })
        | some _ =>
          .ok (.ok, { s with subs := (updateFirst s.subs (fun sb => sb.user_id == user.id)
            (applyCreatedFields isoparse data plan.id subscription_id)) })

/-- `user = session.get(User, user_subscription.user_id)` fallback (lines
288-290): the event-resolved user if any, else the matched subscription's
owner row. -/
def paymentUser (users : List User) (user? : Option User)
    (us : Option UserSubscription) : Option User :=
  match user? with
  | some u => some u
  | none =>
    match us with
    | some sub => users.find? (fun u => u.id == sub.user_id)
    | none => none

/-- The `Payment(...)` row built at lines 291-300. -/
def paymentRow (isoparse : String → Option DateTime) (data : Attributes)
    (user? : Option User) (s : Store) : Payment :=
  let us := lookupSubscription s.subs data.subscription_id
  let user := paymentUser s.users user? us
  { id := freshId s
    user_id := user.map (fun u => u.id)
    user_subscription_id := us.map (fun sb => sb.id)
    lemon_order_id := data.order_id
    amount_in_cents := data.total
    currency := data.currency.getD "usd"
    status := "succeeded"
    paid_at := parse_dt isoparse data.created_at
    receipt_url := match data.urls with
      | some u => u.invoice_url
      | none => none }

/-- `subscription_payment_success` branch (lines 277-306). -/
def handlePaymentSuccess (isoparse : String → Option DateTime) (data : Attributes)
    (user? : Option User) (s : Store) : Except String (Resp × Store) :=
  .ok (.ok, { s with payments := (s.payments ++ [paymentRow isoparse data user? s]), nextId := s.nextId + 1 })

/-- The per-row mutation of the `subscription_updated` branch: plan reference
if the variant resolves, status if present, renewal date if present. -/
def applyUpdatedFields (isoparse : String → Option DateTime)
    (plans : List SubscriptionPlan) (data : Attributes) (sb : UserSubscription) :
    UserSubscription :=
  { sb with
      subscription_plan_id :=
        if truthy data.variant_id then
          match plans.find? (fun p => p.lemon_variant_id == data.variant_id) with
          | some plan => plan.id
          | none => sb.subscription_plan_id
        else sb.subscription_plan_id
      status := if truthy data.status then data.status else sb.status
      current_period_end :=
        (parse_dt isoparse data.renews_at).orElse (fun _ => sb.current_period_end) }

/-- `subscription_updated` branch (lines 308-341). -/
def handleSubscriptionUpdated (isoparse : String → Option DateTime) (data : Attributes)
    (s : Store) : Except String (Resp × Store) :=
  match data.first_subscription_item with
  | none => .error "AttributeError"
  | some fsi =>
    let subscription_id := fsi.subscription_id
    match lookupSubscription s.subs subscription_id with
    | none => .ok (.ok, s)
    | some _ =>
      .ok (.ok, { s with subs := (updateFirst s.subs
        (fun sb => sb.lemon_subscription_id == subscription_id)
        (applyUpdatedFields isoparse s.plans data)) })

/-- Shared shape of the `subscription_cancelled` / `subscription_expired` /
`subscription_payment_failed` branches (lines 343-394): set the status of the
matched subscription, acknowledge regardless. -/
def handleStatusEvent (newStatus : String) (subscription_id : Option String)
    (s : Store) : Except String (Resp × Store) :=
  match lookupSubscription s.subs subscription_id with
  | none => .ok (.ok, s)
  | some _ =>
    .ok (.ok, { s with subs := (updateFirst s.subs
      (fun sb => sb.lemon_subscription_id == subscription_id)
      (fun sb => { sb with status := some newStatus })) })

/-- The event dispatcher of `lemonsqueezy_webhook` (lines 215-399), i.e. the
part that runs after signature verification and JSON parsing.  The `.error`
branch is an unhandled Python exception (framework HTTP 500); every `.ok`
result carries the committed store. -/
def processEvent (isoparse : String → Option DateTime) (p : Payload) (s : Store) :
    Except String (Resp × Store) :=
  let event_type := payloadEventName p
  match payloadCustomData p with
  | none => .error "AttributeError"
  | some cd =>
    let data := payloadAttrs p
    let user := find_user s.users cd.user_id data.customer_id data.user_email
    if event_type = some "order_created" then
      .ok (.ok, s)
    else if event_type = some "subscription_created" then
      handleSubscriptionCreated isoparse data user s
    else if event_type = some "subscription_payment_success" then
      handlePaymentSuccess isoparse data user s
    else if event_type = some "subscription_updated" then
      handleSubscriptionUpdated isoparse data s
    else if event_type = some "subscription_cancelled" then
      handleStatusEvent "cancelled" (pyOr data.id data.subscription_id) s
    else if event_type = some "subscription_expired" then
      handleStatusEvent "expired" (pyOr data.id data.subscription_id) s
    else if event_type = some "subscription_payment_failed" then
      handleStatusEvent "payment_failed" data.subscription_id s
    else
      .ok (.ignored, s)

/-- An inbound webhook request: the `X-Signature` header, the raw body bytes,
and the result of parsing the body as JSON (`none` = parse error). -/
structure RawRequest where
  signature : Option String := none
  rawBody : String := ""
  json : Option Payload := none

/-- Observable outcome of the webhook endpoint.  Only `http200` commits a
store; `http401` (an `HTTPException`) and `http500` (an unhandled exception)
leave the database untouched, which the type records by carrying no store. -/
inductive Outcome
  | http401 (detail : String)
  | http500
  | http200 (resp : Resp) (s : Store)
deriving DecidableEq, Repr

/-- `payload = await request.json()` (raise = HTTP 500) followed by the event
dispatch; runs only after the signature check passed. -/
def dispatchJson (isoparse : String → Option DateTime) (j : Option Payload)
    (s : Store) : Outcome :=
  match j with
  | none => .http500
  | some payload =>
    match processEvent isoparse payload s with
    | .ok (r, s') => .http200 r s'
    | .error _ => .http500

/-- `lemonsqueezy_webhook` (lines 174-399): signature verification (lines
202-214), then JSON parsing, then event dispatch. -/
def lemonsqueezy_webhook (secret : Option String)
    (hmacSha256Hex : String → String → String)
    (isoparse : String → Option DateTime)
    (req : RawRequest) (s : Store) : Outcome :=
  if !truthy secret || !truthy req.signature then
    .http401 "Missing webhook secret or signature"
  else if !(hmacSha256Hex (secret.getD "") req.rawBody == req.signature.getD "") then
    .http401 "Invalid webhook signature"
  else
    dispatchJson isoparse req.json s

/-- Configuration the checkout module reads from `settings`. -/
structure LemonConfig where
  api_key : Option String := none
  store_id : Option String := none
  frontend_host : String := ""
deriving DecidableEq, Repr

/-- The checkout-session payload sent to the processor (lines 113-146),
reduced to the identity-bearing fields. -/
structure CheckoutPayload where
  redirect_url : String
  enabled_variants : List String
  email : String
  custom_user_id : String
  store_id : String
  variant_id : String
deriving DecidableEq, Repr

/-- Observable outcome of `create_checkout_session`. -/
inductive CheckoutResult
  | http404 (detail : String)
  | http500 (detail : String)
  | http502 (detail : String)
  | ok (checkout_url : String)
deriving DecidableEq, Repr

/-- The request body built at lines 113-146. -/
def checkoutPayload (cfg : LemonConfig) (plan : SubscriptionPlan) (user : User) :
    CheckoutPayload :=
  { redirect_url := cfg.frontend_host ++ "/dashboard"
    enabled_variants := [plan.lemon_variant_id.getD ""]
    email := user.email
    custom_user_id := user.id
    store_id := cfg.store_id.getD ""
    variant_id := plan.lemon_variant_id.getD "" }

/-- `create_checkout_session` (lines 29-170).  The outbound `httpx.post` /
response decoding is the function parameter `upstream`: `.error e` covers any
exception in the `try` block (transport error, non-2xx status, undecodable
body), `.ok url` the successfully extracted checkout URL. -/
def create_checkout_session (cfg : LemonConfig) (plans : List SubscriptionPlan)
    (current_user : User) (plan_code : String)
    (upstream : CheckoutPayload → Except String String) : CheckoutResult :=
  match plans.find? (fun p => p.code == plan_code) with
  | none => .http404 "Plan not found or not configured for LemonSqueezy"
  | some plan =>
    if !truthy plan.lemon_variant_id then
      .http404 "Plan not found or not configured for LemonSqueezy"
    else if !truthy cfg.api_key || !truthy cfg.store_id then
      .http500 "LemonSqueezy API key or store ID not configured"
    else
      match upstream (checkoutPayload cfg plan current_user) with
      | .error e => .http502 ("LemonSqueezy error: " ++ e)
      | .ok url => .ok url

/-- A date parser that rejects every string. -/
def isoparseNone : String → Option DateTime := fun _ => none

/-- A toy digest function for concrete instantiations (never empty). -/
def hmacTest : String → String → String := fun k m => "h" ++ k ++ m

/-- Specification-side formulation of the User Resolver (spec section 4.2):
three guarded lookups chained by first-match-wins priority. -/
def resolveUserSpec (users : List User) (user_id lemon_customer_id user_email : Option String) :
    Option User :=
  (if truthy user_id then users.find? (fun u => some u.id == user_id) else none).orElse
    (fun _ =>
      (if truthy lemon_customer_id then
        users.find? (fun u => u.lemon_customer_id == lemon_customer_id)
      else none).orElse
        (fun _ =>
          if truthy user_email then users.find? (fun u => some u.email == user_email)
          else none))

/-- Two-user store used to instantiate the resolver theorem. -/
def usersW : List User :=
  [{ id := "u1", email := "e1@x.io", lemon_customer_id := some "c1" },
   { id := "u2", email := "e2@x.io", lemon_customer_id := none }]

/-- Plan fixture: payment-configured "pro" plan. -/
def planW : SubscriptionPlan := { id := "p1", code := "pro", lemon_variant_id := some "v1" }

/-- User fixture. -/
def userW : User := { id := "u1", email := "a@b.c" }

/-- Store fixture holding the plan and the user, no subscriptions. -/
def storeW : Store := { users := [userW], plans := [planW] }

/-- A `subscription_created` payload whose `created_at` cannot be parsed. -/
def payloadBadDate : Payload :=
  { meta := some { event_name := some "subscription_created",
                   custom_data := some { user_id := some "u1" } },
    data := some { attributes := some { variant_id := some "v1",
                                        status := some "active",
                                        created_at := some "not-a-date",
                                        first_subscription_item :=
                                          some { subscription_id := some "sub1" } } } }

/-- Store fixture with one active subscription for `userW`. -/
def subW : UserSubscription :=
  { id := "s1", user_id := "u1", subscription_plan_id := "p1",
    lemon_subscription_id := some "sub1", status := some "active",
    current_period_end := some 31 }

/-- Store holding `userW`, `planW` and `subW`. -/
def storeSubW : Store := { users := [userW], plans := [planW], subs := [subW] }

/-- An update event that carries a status but no variant id and no renewal
date. -/
def payloadUpdStatus : Payload :=
  { meta := some { event_name := some "subscription_updated",
                   custom_data := some { user_id := none } },
    data := some { attributes := some { status := some "paused",
                                        first_subscription_item :=
                                          some { subscription_id := some "sub1" } } } }

/-- Configuration with the API key missing. -/
def cfgNoKey : LemonConfig := { api_key := none, store_id := some "st" }

/-- Fully configured processor settings. -/
def cfgW : LemonConfig := { api_key := some "key", store_id := some "st" }

/-- A healthy upstream returning a hosted checkout URL. -/
def upstreamOk : CheckoutPayload → Except String String :=
  fun _ => .ok "pay.example/x"

/-- The single-row-per-user invariant: no two subscription rows share an
owner. -/
def atMostOnePerUser (s : Store) : Prop :=
  (s.subs.map (fun sb => sb.user_id)).Nodup

instance (s : Store) : Decidable (atMostOnePerUser s) := by
  unfold atMostOnePerUser
  infer_instance

/-- A `subscription_payment_success` payload whose subscription id matches
nothing but whose email hint resolves. -/
def payloadOrphanPay : Payload :=
  { meta := some { event_name := some "subscription_payment_success",
                   custom_data := some { user_id := none } },
    data := some { attributes := some { user_email := some "a@b.c",
                                        subscription_id := some "zzz",
                                        order_id := some "O1",
                                        total := some 999 } } }

/-- A correctly signed payment-success request fixture. -/
def reqPayW : RawRequest :=
  { signature := some (hmacTest "sec" "body"), rawBody := "body",
    json := some payloadOrphanPay }

/-- A second payment-configured plan. -/
def planW2 : SubscriptionPlan := { id := "p2", code := "biz", lemon_variant_id := some "v2" }

/-- Store with two plans and one user. -/
def storeTwoPlans : Store := { users := [userW], plans := [planW, planW2] }

/-- A `subscription_created` payload for the second plan. -/
def payloadCreated2 : Payload :=
  { meta := some { event_name := some "subscription_created",
                   custom_data := some { user_id := some "u1" } },
    data := some { attributes := some { variant_id := some "v2",
                                        status := some "active",
                                        first_subscription_item :=
                                          some { subscription_id := some "sub2" } } } }

/-- `n`-fold redelivery of the same webhook payload (`none` once a delivery
raises). -/
def processN (isoparse : String → Option DateTime) (p : Payload) (s : Store) :
    Nat → Option Store
  | 0 => some s
  | n + 1 =>
    match processN isoparse p s n with
    | some s₁ =>
      match processEvent isoparse p s₁ with
      | .ok (_, s₂) => some s₂
      | .error _ => none
    | none => none

/-- A `subscription_updated` payload carrying the subscription id only at top
level, with no nested `first_subscription_item` object. -/
def payloadUpdTopLevel : Payload :=
  { meta := some { event_name := some "subscription_updated",
                   custom_data := some { user_id := none } },
    data := some { attributes := some { subscription_id := some "sub1",
                                        status := some "active" } } }

/-- A correctly signed request carrying `payloadUpdTopLevel`. -/
def reqUpdTopLevel : RawRequest :=
  { signature := some (hmacTest "sec" "body2"), rawBody := "body2",
    json := some payloadUpdTopLevel }

/-- An update payload whose nested subscription id matches nothing stored. -/
def payloadUpdUnknown : Payload :=
  { meta := some { event_name := some "subscription_updated",
                   custom_data := some { user_id := none } },
    data := some { attributes := some { status := some "past_due",
                                        first_subscription_item :=
                                          some { subscription_id := some "nope" } } } }

section UpdateFirstLemmas

variable {α β : Type}

theorem updateFirst_nil (p : α → Bool) (f : α → α) : updateFirst [] p f = [] := rfl

theorem updateFirst_cons (x : α) (xs : List α) (p : α → Bool) (f : α → α) :
    updateFirst (x :: xs) p f = if p x then f x :: xs else x :: updateFirst xs p f := rfl

theorem updateFirst_of_forall_not {l : List α} {p : α → Bool} (f : α → α)
    (h : ∀ x ∈ l, p x = false) : updateFirst l p f = l := by
  induction l with
  | nil => rfl
  | cons x xs ih =>
    simp only [updateFirst_cons, h x (by simp)]
    simp only [if_neg Bool.false_ne_true, List.cons.injEq, true_and]
    exact ih fun y hy => h y (by simp [hy])

theorem updateFirst_append_of_forall_not {l₁ : List α} (l₂ : List α) {p : α → Bool}
    (f : α → α) (h : ∀ x ∈ l₁, p x = false) :
    updateFirst (l₁ ++ l₂) p f = l₁ ++ updateFirst l₂ p f := by
  induction l₁ with
  | nil => rfl
  | cons x xs ih =>
    simp only [List.cons_append, updateFirst_cons, h x (by simp),
      if_neg Bool.false_ne_true, List.cons.injEq, true_and]
    exact ih fun y hy => h y (by simp [hy])

theorem map_updateFirst {l : List α} {p : α → Bool} {f : α → α} (g : α → β)
    (h : ∀ x, g (f x) = g x) : (updateFirst l p f).map g = l.map g := by
  induction l with
  | nil => rfl
  | cons x xs ih =>
    simp only [updateFirst_cons]
    by_cases hp : p x = true
    · simp [hp, h]
    · simp only [hp]
      simp [ih]

theorem find?_updateFirst {l : List α} {p : α → Bool} {f : α → α}
    (hp : ∀ x, p (f x) = p x) : (updateFirst l p f).find? p = (l.find? p).map f := by
  induction l with
  | nil => rfl
  | cons x xs ih =>
    simp only [updateFirst_cons]
    by_cases hx : p x = true
    · simp [hx, List.find?_cons, hp]
    · simp only [hx]
      simp only [Bool.false_eq_true, if_false, List.find?_cons]
      rw [Bool.not_eq_true] at hx
      simp [hx, ih]

theorem updateFirst_updateFirst {l : List α} {p : α → Bool} {f : α → α}
    (hp : ∀ x, p (f x) = p x) (hf : ∀ x, f (f x) = f x) :
    updateFirst (updateFirst l p f) p f = updateFirst l p f := by
  induction l with
  | nil => rfl
  | cons x xs ih =>
    by_cases hx : p x = true
    · simp [updateFirst_cons, hx, hp, hf]
    · simp only [updateFirst_cons, hx]
      simp only [Bool.false_eq_true, if_false, updateFirst_cons, hx, ih]

theorem length_filter_updateFirst {l : List α} {p q : α → Bool} {f : α → α}
    (hq : ∀ x, q (f x) = q x) :
    ((updateFirst l p f).filter q).length = (l.filter q).length := by
  induction l with
  | nil => rfl
  | cons x xs ih =>
    by_cases hx : p x = true
    · simp only [updateFirst_cons, hx, if_true, List.filter_cons, hq]
      by_cases hqx : q x = true <;> simp [hqx]
    · simp only [updateFirst_cons, hx]
      simp only [Bool.false_eq_true, if_false, List.filter_cons]
      by_cases hqx : q x = true <;> simp [hqx, ih]

theorem filter_updateFirst_of_singleton {l : List α} {p : α → Bool} {f : α → α} {a : α}
    (hp : ∀ x, p (f x) = p x) (h : l.filter p = [a]) :
    (updateFirst l p f).filter p = [f a] := by
  induction l with
  | nil => simp at h
  | cons x xs ih =>
    by_cases hx : p x = true
    · rw [List.filter_cons_of_pos hx] at h
      have hxa : x = a := (List.cons.injEq _ _ _ _ ▸ h).1
      have hrest : xs.filter p = [] := (List.cons.injEq _ _ _ _ ▸ h).2
      subst hxa
      simp only [updateFirst_cons, hx, if_true, List.filter_cons, hp, hx, if_true, hrest]
    · rw [List.filter_cons_of_neg (by simp [hx])] at h
      simp only [updateFirst_cons, hx]
      simp only [Bool.false_eq_true, if_false,
        List.filter_cons_of_neg (by simp [hx] : ¬p x = true)]
      exact ih h

theorem mem_updateFirst_of_find? {l : List α} {p : α → Bool} {f : α → α} {a : α}
    (h : l.find? p = some a) : f a ∈ updateFirst l p f := by
  induction l with
  | nil => simp at h
  | cons x xs ih =>
    by_cases hx : p x = true
    · rw [List.find?_cons_of_pos _ hx] at h
      obtain rfl : x = a := by injection h
      simp [updateFirst_cons, hx]
    · rw [List.find?_cons_of_neg _ (by simp [hx])] at h
      simp only [updateFirst_cons, hx]
      simp only [Bool.false_eq_true, if_false, List.mem_cons]
      exact Or.inr (ih h)

theorem find?_append_of_forall_not {l₁ : List α} (l₂ : List α) {p : α → Bool}
    (h : ∀ x ∈ l₁, p x = false) : (l₁ ++ l₂).find? p = l₂.find? p := by
  induction l₁ with
  | nil => rfl
  | cons x xs ih =>
    rw [List.cons_append, List.find?_cons_of_neg _ (by simp [h x (by simp)])]
    exact ih fun y hy => h y (by simp [hy])

theorem filter_eq_singleton_of_nodup_keyed {l : List α} {g : α → β} {p : α → Bool} {a : α}
    (hkey : ∀ x y, p x = true → p y = true → g x = g y)
    (hnd : (l.map g).Nodup) (h : l.find? p = some a) : l.filter p = [a] := by
  induction l with
  | nil => simp at h
  | cons x xs ih =>
    rw [List.map_cons, List.nodup_cons] at hnd
    by_cases hx : p x = true
    · rw [List.find?_cons_of_pos _ hx] at h
      obtain rfl : x = a := by injection h
      rw [List.filter_cons_of_pos hx]
      have hrest : xs.filter p = [] := by
        rw [List.filter_eq_nil_iff]
        intro y hy hpy
        exact hnd.1 (List.mem_map.mpr ⟨y, hy, (hkey y x hpy hx).symm ▸ rfl⟩)
      rw [hrest]
    · rw [List.find?_cons_of_neg _ (by simp [hx])] at h
      rw [List.filter_cons_of_neg (by simp [hx])]
      exact ih hnd.2 h

theorem find?_eq_head?_filter (l : List α) (p : α → Bool) :
    l.find? p = (l.filter p).head? := by
  induction l with
  | nil => rfl
  | cons x xs ih =>
    by_cases hx : p x = true
    · rw [List.find?_cons_of_pos _ hx, List.filter_cons_of_pos hx, List.head?_cons]
    · rw [List.find?_cons_of_neg _ (by simp [hx]), List.filter_cons_of_neg (by simp [hx])]
      exact ih

end UpdateFirstLemmas

section DispatchLemmas

variable (isoparse : String → Option DateTime) (p : Payload) (s : Store) (cd : CustomData)

/-- Missing `meta.custom_data` raises before any branch runs (line 218). -/
theorem processEvent_no_custom_data (h : payloadCustomData p = none) :
    processEvent isoparse p s = .error "AttributeError" := by
  unfold processEvent
  rw [h]

theorem processEvent_dispatch_order (hcd : payloadCustomData p = some cd)
    (hev : payloadEventName p = some "order_created") :
    processEvent isoparse p s = .ok (.ok, s) := by
  unfold processEvent
  rw [hcd, hev]
  simp only [reduceCtorEq, reduceIte, Option.some.injEq, String.reduceEq]

theorem processEvent_dispatch_created (hcd : payloadCustomData p = some cd)
    (hev : payloadEventName p = some "subscription_created") :
    processEvent isoparse p s = handleSubscriptionCreated isoparse (payloadAttrs p)
      (find_user s.users cd.user_id (payloadAttrs p).customer_id
        (payloadAttrs p).user_email) s := by
  unfold processEvent
  rw [hcd, hev]
  simp only [reduceCtorEq, reduceIte, Option.some.injEq, String.reduceEq]

theorem processEvent_dispatch_payment (hcd : payloadCustomData p = some cd)
    (hev : payloadEventName p = some "subscription_payment_success") :
    processEvent isoparse p s = handlePaymentSuccess isoparse (payloadAttrs p)
      (find_user s.users cd.user_id (payloadAttrs p).customer_id
        (payloadAttrs p).user_email) s := by
  unfold processEvent
  rw [hcd, hev]
  simp only [reduceCtorEq, reduceIte, Option.some.injEq, String.reduceEq]

theorem processEvent_dispatch_updated (hcd : payloadCustomData p = some cd)
    (hev : payloadEventName p = some "subscription_updated") :
    processEvent isoparse p s = handleSubscriptionUpdated isoparse (payloadAttrs p) s := by
  unfold processEvent
  rw [hcd, hev]
  simp only [reduceCtorEq, reduceIte, Option.some.injEq, String.reduceEq]

theorem processEvent_dispatch_cancelled (hcd : payloadCustomData p = some cd)
    (hev : payloadEventName p = some "subscription_cancelled") :
    processEvent isoparse p s = handleStatusEvent "cancelled"
      (pyOr (payloadAttrs p).id (payloadAttrs p).subscription_id) s := by
  unfold processEvent
  rw [hcd, hev]
  simp only [reduceCtorEq, reduceIte, Option.some.injEq, String.reduceEq]

theorem processEvent_dispatch_expired (hcd : payloadCustomData p = some cd)
    (hev : payloadEventName p = some "subscription_expired") :
    processEvent isoparse p s = handleStatusEvent "expired"
      (pyOr (payloadAttrs p).id (payloadAttrs p).subscription_id) s := by
  unfold processEvent
  rw [hcd, hev]
  simp only [reduceCtorEq, reduceIte, Option.some.injEq, String.reduceEq]

theorem processEvent_dispatch_payment_failed (hcd : payloadCustomData p = some cd)
    (hev : payloadEventName p = some "subscription_payment_failed") :
    processEvent isoparse p s = handleStatusEvent "payment_failed"
      (payloadAttrs p).subscription_id s := by
  unfold processEvent
  rw [hcd, hev]
  simp only [reduceCtorEq, reduceIte, Option.some.injEq, String.reduceEq]

theorem processEvent_dispatch_unknown (hcd : payloadCustomData p = some cd)
    (hev : ∀ e ∈ ["order_created", "subscription_created", "subscription_payment_success",
      "subscription_updated", "subscription_cancelled", "subscription_expired",
      "subscription_payment_failed"], payloadEventName p ≠ some e) :
    processEvent isoparse p s = .ok (.ignored, s) := by
  unfold processEvent
  rw [hcd]
  dsimp only
  rw [if_neg (hev "order_created" (by simp)),
      if_neg (hev "subscription_created" (by simp)),
      if_neg (hev "subscription_payment_success" (by simp)),
      if_neg (hev "subscription_updated" (by simp)),
      if_neg (hev "subscription_cancelled" (by simp)),
      if_neg (hev "subscription_expired" (by simp)),
      if_neg (hev "subscription_payment_failed" (by simp))]

end DispatchLemmas

section HandlerCaseLemmas

variable (isoparse : String → Option DateTime) (data : Attributes) (s : Store)

theorem handleStatusEvent_not_found (st : String) (sid : Option String)
    (h : lookupSubscription s.subs sid = none) :
    handleStatusEvent st sid s = .ok (.ok, s) := by
  unfold handleStatusEvent
  simp only [h]

theorem handleStatusEvent_found (st : String) (sid : Option String) (x : UserSubscription)
    (h : lookupSubscription s.subs sid = some x) :
    handleStatusEvent st sid s = .ok (.ok, { s with subs := (updateFirst s.subs
      (fun sb => sb.lemon_subscription_id == sid)
      (fun sb => { sb with status := some st })) }) := by
  unfold handleStatusEvent
  simp only [h]

theorem handleSubscriptionUpdated_no_item (h : data.first_subscription_item = none) :
    handleSubscriptionUpdated isoparse data s = .error "AttributeError" := by
  unfold handleSubscriptionUpdated
  simp only [h]

theorem handleSubscriptionUpdated_not_found (fsi : FirstSubItem)
    (hfsi : data.first_subscription_item = some fsi)
    (h : lookupSubscription s.subs fsi.subscription_id = none) :
    handleSubscriptionUpdated isoparse data s = .ok (.ok, s) := by
  unfold handleSubscriptionUpdated
  simp only [hfsi, h]

theorem handleSubscriptionUpdated_found (fsi : FirstSubItem) (x : UserSubscription)
    (hfsi : data.first_subscription_item = some fsi)
    (h : lookupSubscription s.subs fsi.subscription_id = some x) :
    handleSubscriptionUpdated isoparse data s = .ok (.ok, { s with subs :=
      (updateFirst s.subs (fun sb => sb.lemon_subscription_id == fsi.subscription_id)
        (applyUpdatedFields isoparse s.plans data)) }) := by
  unfold handleSubscriptionUpdated
  simp only [hfsi, h]

theorem handleSubscriptionCreated_no_item (user? : Option User)
    (h : data.first_subscription_item = none) :
    handleSubscriptionCreated isoparse data user? s = .error "AttributeError" := by
  unfold handleSubscriptionCreated
  simp only [h]

theorem handleSubscriptionCreated_no_plan (user? : Option User) (fsi : FirstSubItem)
    (hfsi : data.first_subscription_item = some fsi)
    (h : s.plans.find? (fun p => p.lemon_variant_id == data.variant_id) = none) :
    handleSubscriptionCreated isoparse data user? s = .ok (.err "Plan not found", s) := by
  unfold handleSubscriptionCreated
  simp only [hfsi, h]

theorem handleSubscriptionCreated_no_user (fsi : FirstSubItem) (plan : SubscriptionPlan)
    (hfsi : data.first_subscription_item = some fsi)
    (hplan : s.plans.find? (fun p => p.lemon_variant_id == data.variant_id) = some plan) :
    handleSubscriptionCreated isoparse data none s = .ok (.err "User not found", s) := by
  unfold handleSubscriptionCreated
  simp only [hfsi, hplan]

theorem handleSubscriptionCreated_insert (fsi : FirstSubItem) (plan : SubscriptionPlan)
    (user : User) (hfsi : data.first_subscription_item = some fsi)
    (hplan : s.plans.find? (fun p => p.lemon_variant_id == data.variant_id) = some plan)
    (hsub : s.subs.find? (fun sb => sb.user_id == user.id) = none) :
    handleSubscriptionCreated isoparse data (some user) s = .ok (.ok, { s with
      subs := s.subs ++ [newSubscriptionRow isoparse data plan fsi.subscription_id user s],
      nextId := s.nextId + 1 }) := by
  unfold handleSubscriptionCreated
  simp only [hfsi, hplan, hsub]

theorem handleSubscriptionCreated_update (fsi : FirstSubItem) (plan : SubscriptionPlan)
    (user : User) (x : UserSubscription) (hfsi : data.first_subscription_item = some fsi)
    (hplan : s.plans.find? (fun p => p.lemon_variant_id == data.variant_id) = some plan)
    (hsub : s.subs.find? (fun sb => sb.user_id == user.id) = some x) :
    handleSubscriptionCreated isoparse data (some user) s = .ok (.ok, { s with
      subs := (updateFirst s.subs (fun sb => sb.user_id == user.id)
        (applyCreatedFields isoparse data plan.id fsi.subscription_id)) }) := by
  unfold handleSubscriptionCreated
  simp only [hfsi, hplan, hsub]

end HandlerCaseLemmas

/-! Concrete stand-ins for the library function parameters, used only to
instantiate theorems on concrete inputs. -/

/-- Guarded lookup returning `some` implies the element is in the list. -/
theorem mem_of_guard_find? {α : Type} {l : List α} {p : α → Bool} {b : Bool} {u : α}
    (h : (if b then l.find? p else none) = some u) : u ∈ l := by
  by_cases hb : b = true
  · rw [if_pos hb] at h
    exact List.mem_of_find?_eq_some h
  · rw [if_neg hb] at h
    exact Option.noConfusion h

theorem orElse_eq_some_cases {α : Type} {a : Option α} {f : Unit → Option α} {u : α}
    (h : a.orElse f = some u) : a = some u ∨ (a = none ∧ f () = some u) := by
  cases a with
  | none => exact Or.inr ⟨rfl, by simpa [Option.orElse] using h⟩
  | some x => exact Or.inl (by simpa [Option.orElse] using h)

theorem orElse_eq_none_iff {α : Type} (a : Option α) (f : Unit → Option α) :
    a.orElse f = none ↔ a = none ∧ f () = none := by
  cases a <;> simp [Option.orElse]

theorem guard_find?_eq_none_iff {α : Type} (l : List α) (p : α → Bool) (b : Bool) :
    (if b then l.find? p else none) = none ↔ (b = true → l.find? p = none) := by
  by_cases hb : b = true <;> simp [hb]

theorem find_user_eq_resolveUserSpec (users : List User)
    (user_id lemon_customer_id user_email : Option String) :
    find_user users user_id lemon_customer_id user_email =
      resolveUserSpec users user_id lemon_customer_id user_email := by
  unfold find_user resolveUserSpec
  by_cases h1 : truthy user_id = true
  · cases hf1 : users.find? (fun u => some u.id == user_id) with
    | some u => simp [h1, hf1, Option.orElse]
    | none =>
      simp only [h1, if_true, hf1, Option.isNone_none, Bool.true_and, Option.orElse]
      by_cases h2 : truthy lemon_customer_id = true
      · cases hf2 : users.find? (fun u => u.lemon_customer_id == lemon_customer_id) with
        | some u => simp [h2, hf2]
        | none => simp [h2, hf2]
      · simp [h2]
  · simp only [h1, Bool.false_eq_true, if_false, Option.isNone_none, Bool.true_and,
      Option.orElse]
    by_cases h2 : truthy lemon_customer_id = true
    · cases hf2 : users.find? (fun u => u.lemon_customer_id == lemon_customer_id) with
      | some u => simp [h2, hf2]
      | none => simp [h2, hf2]
    · simp [h2]

/-- C7: the user resolver returns the first match in strict priority order
(internal id, then external customer id, then email), each lookup attempted
only when its input is present; it returns not-found exactly when no attempted
lookup matches; and any user it returns already exists in the store (it never
creates one — the resolver is a pure read). -/
theorem find_user_priority_order (users : List User)
    (user_id lemon_customer_id user_email : Option String) :
    find_user users user_id lemon_customer_id user_email =
      resolveUserSpec users user_id lemon_customer_id user_email
    ∧ (∀ u, find_user users user_id lemon_customer_id user_email = some u → u ∈ users)
    ∧ (find_user users user_id lemon_customer_id user_email = none ↔
        ((truthy user_id = true → users.find? (fun u => some u.id == user_id) = none)
         ∧ (truthy lemon_customer_id = true →
             users.find? (fun u => u.lemon_customer_id == lemon_customer_id) = none)
         ∧ (truthy user_email = true →
             users.find? (fun u => some u.email == user_email) = none))) := by
  refine ⟨find_user_eq_resolveUserSpec users user_id lemon_customer_id user_email, ?_, ?_⟩
  · intro u h
    rw [find_user_eq_resolveUserSpec] at h
    unfold resolveUserSpec at h
    rcases orElse_eq_some_cases h with h' | ⟨_, h'⟩
    · exact mem_of_guard_find? h'
    · rcases orElse_eq_some_cases h' with h'' | ⟨_, h''⟩
      · exact mem_of_guard_find? h''
      · exact mem_of_guard_find? h''
  · rw [find_user_eq_resolveUserSpec]
    unfold resolveUserSpec
    rw [orElse_eq_none_iff, orElse_eq_none_iff, guard_find?_eq_none_iff,
      guard_find?_eq_none_iff, guard_find?_eq_none_iff]

/-- Witness for C7: on a concrete store the internal-id lookup wins and the
returned user is one of the stored rows. -/
theorem find_user_priority_order_witness :
    ({ id := "u2", email := "e2@x.io", lemon_customer_id := none } : User) ∈ usersW :=
  (find_user_priority_order usersW (some "u2") (some "c1") (some "e1@x.io")).2.1 _ (by decide)

/-- C10: webhook datetime parsing is total — a missing or unparsable date
string yields a null timestamp rather than an error — and a
`subscription_created` event whose `created_at` fails to parse is still
processed, storing a subscription row for the user whose start date is null. -/
theorem parse_dt_total_unparsable_created_processed (isoparse : String → Option DateTime) :
    parse_dt isoparse none = none
    ∧ parse_dt isoparse (some "") = none
    ∧ (∀ v, isoparse v = none → parse_dt isoparse (some v) = none)
    ∧ (∀ (p : Payload) (s : Store) (cd : CustomData) (fsi : FirstSubItem)
        (plan : SubscriptionPlan) (user : User) (c : String),
        payloadEventName p = some "subscription_created" →
        payloadCustomData p = some cd →
        (payloadAttrs p).first_subscription_item = some fsi →
        s.plans.find? (fun q => q.lemon_variant_id == (payloadAttrs p).variant_id) =
          some plan →
        find_user s.users cd.user_id (payloadAttrs p).customer_id
          (payloadAttrs p).user_email = some user →
        (payloadAttrs p).created_at = some c →
        isoparse c = none →
        ∃ s', processEvent isoparse p s = .ok (.ok, s')
          ∧ ∃ sb ∈ s'.subs, sb.user_id = user.id ∧ sb.start_date = none) := by
  have hparse : ∀ v, isoparse v = none → parse_dt isoparse (some v) = none := by
    intro v hv
    by_cases h : v == ""
    · simp [parse_dt, h]
    · simp [parse_dt, h, hv]
  refine ⟨rfl, by simp [parse_dt], hparse, ?_⟩
  intro p s cd fsi plan user c hev hcd hfsi hplan hu hc hiso
  have hstart : parse_dt isoparse (payloadAttrs p).created_at = none := by
    rw [hc]
    exact hparse c hiso
  cases hsub : s.subs.find? (fun sb => sb.user_id == user.id) with
  | none =>
    have h1 : processEvent isoparse p s = .ok (.ok, { s with
        subs := s.subs ++ [newSubscriptionRow isoparse (payloadAttrs p) plan
          fsi.subscription_id user s],
        nextId := s.nextId + 1 }) := by
      rw [processEvent_dispatch_created isoparse p s cd hcd hev, hu,
        handleSubscriptionCreated_insert isoparse (payloadAttrs p) s fsi plan user
          hfsi hplan hsub]
    refine ⟨_, h1,
      newSubscriptionRow isoparse (payloadAttrs p) plan fsi.subscription_id user s,
      by simp, rfl, ?_⟩
    show parse_dt isoparse (payloadAttrs p).created_at = none
    exact hstart
  | some x =>
    have h1 : processEvent isoparse p s = .ok (.ok, { s with
        subs := (updateFirst s.subs (fun sb => sb.user_id == user.id)
          (applyCreatedFields isoparse (payloadAttrs p) plan.id fsi.subscription_id)) }) := by
      rw [processEvent_dispatch_created isoparse p s cd hcd hev, hu,
        handleSubscriptionCreated_update isoparse (payloadAttrs p) s fsi plan user x
          hfsi hplan hsub]
    refine ⟨_, h1,
      applyCreatedFields isoparse (payloadAttrs p) plan.id fsi.subscription_id x,
      mem_updateFirst_of_find? hsub, ?_, ?_⟩
    · show x.user_id = user.id
      have := List.find?_some hsub
      exact eq_of_beq this
    · show parse_dt isoparse (payloadAttrs p).created_at = none
      exact hstart

/-- Witness for C10 at a concrete store and payload. -/
theorem parse_dt_total_witness :
    ∃ s', processEvent isoparseNone payloadBadDate storeW = .ok (.ok, s')
      ∧ ∃ sb ∈ s'.subs, sb.user_id = userW.id ∧ sb.start_date = none :=
  (parse_dt_total_unparsable_created_processed isoparseNone).2.2.2 payloadBadDate storeW
    { user_id := some "u1" } { subscription_id := some "sub1" } planW userW "not-a-date"
    rfl rfl rfl (by decide) (by decide) rfl rfl

/-- C5: a `subscription_updated` event that matches a stored subscription
changes the plan reference only when its variant id resolves to a known plan,
the status only when the event carries a truthy status, and the current period
end only when its `renews_at` parses; every other field of the updated row is
untouched, and the store mutation is exactly the in-place update of the first
matching row. -/
theorem subscription_updated_partial_fields (isoparse : String → Option DateTime)
    (p : Payload) (s : Store) (cd : CustomData) (fsi : FirstSubItem)
    (sub : UserSubscription)
    (hev : payloadEventName p = some "subscription_updated")
    (hcd : payloadCustomData p = some cd)
    (hfsi : (payloadAttrs p).first_subscription_item = some fsi)
    (hsub : lookupSubscription s.subs fsi.subscription_id = some sub) :
    processEvent isoparse p s = .ok (.ok, { s with subs := (updateFirst s.subs
      (fun sb => sb.lemon_subscription_id == fsi.subscription_id)
      (applyUpdatedFields isoparse s.plans (payloadAttrs p))) })
    ∧ (∀ sb, ((applyUpdatedFields isoparse s.plans (payloadAttrs p) sb).id = sb.id
        ∧ (applyUpdatedFields isoparse s.plans (payloadAttrs p) sb).user_id = sb.user_id
        ∧ (applyUpdatedFields isoparse s.plans (payloadAttrs p) sb).lemon_subscription_id
            = sb.lemon_subscription_id
        ∧ (applyUpdatedFields isoparse s.plans (payloadAttrs p) sb).start_date = sb.start_date
        ∧ (applyUpdatedFields isoparse s.plans (payloadAttrs p) sb).trial_end = sb.trial_end
        ∧ (applyUpdatedFields isoparse s.plans (payloadAttrs p) sb).cancel_at_period_end
            = sb.cancel_at_period_end
        ∧ (applyUpdatedFields isoparse s.plans (payloadAttrs p) sb).canceled_at
            = sb.canceled_at))
    ∧ ((truthy (payloadAttrs p).variant_id = false
          ∨ s.plans.find? (fun q => q.lemon_variant_id == (payloadAttrs p).variant_id)
              = none) →
        ∀ sb, (applyUpdatedFields isoparse s.plans (payloadAttrs p) sb).subscription_plan_id
          = sb.subscription_plan_id)
    ∧ (truthy (payloadAttrs p).status = false →
        ∀ sb, (applyUpdatedFields isoparse s.plans (payloadAttrs p) sb).status = sb.status)
    ∧ (truthy (payloadAttrs p).status = true →
        ∀ sb, (applyUpdatedFields isoparse s.plans (payloadAttrs p) sb).status
          = (payloadAttrs p).status)
    ∧ (parse_dt isoparse (payloadAttrs p).renews_at = none →
        ∀ sb, (applyUpdatedFields isoparse s.plans (payloadAttrs p) sb).current_period_end
          = sb.current_period_end) := by
  refine ⟨?_, ?_, ?_, ?_, ?_, ?_⟩
  · rw [processEvent_dispatch_updated isoparse p s cd hcd hev,
      handleSubscriptionUpdated_found isoparse (payloadAttrs p) s fsi sub hfsi hsub]
  · intro sb
    exact ⟨rfl, rfl, rfl, rfl, rfl, rfl, rfl⟩
  · intro h sb
    rcases h with h | h
    · simp [applyUpdatedFields, h]
    · simp [applyUpdatedFields, h]
  · intro h sb
    simp [applyUpdatedFields, h]
  · intro h sb
    simp [applyUpdatedFields, h]
  · intro h sb
    simp [applyUpdatedFields, h, Option.orElse]

/-- Witness for C5: concrete update leaves everything but `status` unchanged. -/
theorem subscription_updated_partial_fields_witness :
    processEvent isoparseNone payloadUpdStatus storeSubW = .ok (.ok, { storeSubW with
      subs := (updateFirst storeSubW.subs
        (fun sb => sb.lemon_subscription_id == some "sub1")
        (applyUpdatedFields isoparseNone storeSubW.plans (payloadAttrs payloadUpdStatus))) }) :=
  (subscription_updated_partial_fields isoparseNone payloadUpdStatus storeSubW
    { user_id := none } { subscription_id := some "sub1" } subW
    rfl rfl rfl (by decide)).1

/-- Once the signature check has passed, the handler never answers 401. -/
theorem dispatchJson_ne_http401 (isoparse : String → Option DateTime)
    (j : Option Payload) (s : Store) (d : String) :
    dispatchJson isoparse j s ≠ .http401 d := by
  unfold dispatchJson
  cases j with
  | none => simp
  | some payload =>
    cases hpe : processEvent isoparse payload s with
    | ok rs =>
      cases rs with
      | mk r s' => simp [hpe]
    | error e => simp [hpe]

/-- C6: the webhook handler answers 401 exactly when the secret is not
configured, the signature header is absent, or the HMAC-SHA256 hex digest of
the raw body under the secret differs from the claimed header value; and the
401 decision (including its detail) is taken before the body is parsed: it is
invariant under replacing the parsed JSON.  No store accompanies a 401
outcome — a rejected request commits nothing.  The hypothesis `hh` records
that a SHA-256 hex digest is never the empty string. -/
theorem webhook_signature_gate (secret : Option String)
    (hmacSha256Hex : String → String → String) (isoparse : String → Option DateTime)
    (req : RawRequest) (s : Store)
    (hh : ∀ k m, hmacSha256Hex k m ≠ "") :
    ((∃ d, lemonsqueezy_webhook secret hmacSha256Hex isoparse req s = .http401 d) ↔
      (truthy secret = false ∨ req.signature = none ∨
        hmacSha256Hex (secret.getD "") req.rawBody ≠ req.signature.getD ""))
    ∧ (∀ d j, lemonsqueezy_webhook secret hmacSha256Hex isoparse req s = .http401 d →
        lemonsqueezy_webhook secret hmacSha256Hex isoparse { req with json := j } s
          = .http401 d) := by
  constructor
  · constructor
    · rintro ⟨d, hd⟩
      unfold lemonsqueezy_webhook at hd
      by_cases h1 : (!truthy secret || !truthy req.signature) = true
      · simp only [Bool.or_eq_true, Bool.not_eq_true'] at h1
        rcases h1 with h | h
        · exact Or.inl h
        · cases hsig : req.signature with
          | none => exact Or.inr (Or.inl rfl)
          | some v =>
            refine Or.inr (Or.inr ?_)
            rw [hsig] at h
            have hv : v = "" := by simpa [truthy] using h
            rw [hv]
            simpa using hh (secret.getD "") req.rawBody
      · rw [if_neg h1] at hd
        by_cases h2 : (hmacSha256Hex (secret.getD "") req.rawBody
            == req.signature.getD "") = true
        · rw [if_neg (by simp [h2])] at hd
          exact absurd hd (dispatchJson_ne_http401 isoparse req.json s d)
        · refine Or.inr (Or.inr ?_)
          intro hEq
          exact h2 (by rw [hEq]; exact beq_self_eq_true _)
    · intro h
      unfold lemonsqueezy_webhook
      by_cases h1 : (!truthy secret || !truthy req.signature) = true
      · rw [if_pos h1]
        exact ⟨_, rfl⟩
      · rw [if_neg h1]
        simp only [Bool.or_eq_true, Bool.not_eq_true', not_or, Bool.not_eq_false] at h1
        rcases h with h | h | h
        · rw [h] at h1
          exact absurd h1.1 (by simp)
        · rw [h] at h1
          exact absurd h1.2 (by simp [truthy])
        · rw [if_pos (by simp [Bool.not_eq_true', beq_eq_false_iff_ne]; exact h)]
          exact ⟨_, rfl⟩
  · intro d j hd
    unfold lemonsqueezy_webhook at hd ⊢
    by_cases h1 : (!truthy secret || !truthy req.signature) = true
    · rw [if_pos h1] at hd ⊢
      exact hd
    · rw [if_neg h1] at hd ⊢
      by_cases h2 : (hmacSha256Hex (secret.getD "") req.rawBody
          == req.signature.getD "") = true
      · rw [if_neg (by simp [h2])] at hd
        exact absurd hd (dispatchJson_ne_http401 isoparse req.json s d)
      · rw [if_pos (by simp [Bool.not_eq_true']; simpa using h2)] at hd ⊢
        exact hd

/-- Witness for C6: a request whose signature header was computed over a
different body is rejected with 401. -/
theorem webhook_signature_gate_witness :
    ∃ d, lemonsqueezy_webhook (some "sec") hmacTest isoparseNone
      { signature := some (hmacTest "sec" "other-body"), rawBody := "real-body",
        json := some payloadBadDate } storeW = .http401 d :=
  (webhook_signature_gate (some "sec") hmacTest isoparseNone
    { signature := some (hmacTest "sec" "other-body"), rawBody := "real-body",
      json := some payloadBadDate } storeW
    (fun k m => by
      intro hc
      have hl := congrArg String.data hc
      simp [hmacTest, String.data_append] at hl)).1.mpr
    (Or.inr (Or.inr (by decide)))

/-- C8 (amended): provided the processor API key and store id are configured,
checkout-session creation fails 404 when no plan matches the code or the
matched plan lacks an external variant id, fails 502 wrapping the upstream
error on any transport/HTTP failure from the processor, and otherwise returns
the processor's hosted checkout URL from a session payload pre-filled with the
user's email and a custom field carrying the internal user id. -/
theorem create_checkout_session_spec (cfg : LemonConfig) (plans : List SubscriptionPlan)
    (user : User) (plan_code : String)
    (upstream : CheckoutPayload → Except String String)
    (hkey : truthy cfg.api_key = true) (hsid : truthy cfg.store_id = true) :
    (plans.find? (fun q => q.code == plan_code) = none →
      create_checkout_session cfg plans user plan_code upstream
        = .http404 "Plan not found or not configured for LemonSqueezy")
    ∧ (∀ plan, plans.find? (fun q => q.code == plan_code) = some plan →
        ((truthy plan.lemon_variant_id = false →
          create_checkout_session cfg plans user plan_code upstream
            = .http404 "Plan not found or not configured for LemonSqueezy")
        ∧ (truthy plan.lemon_variant_id = true →
            ((∀ e, upstream (checkoutPayload cfg plan user) = .error e →
               create_checkout_session cfg plans user plan_code upstream
                 = .http502 ("LemonSqueezy error: " ++ e))
             ∧ (∀ url, upstream (checkoutPayload cfg plan user) = .ok url →
                 create_checkout_session cfg plans user plan_code upstream = .ok url)
             ∧ (checkoutPayload cfg plan user).email = user.email
             ∧ (checkoutPayload cfg plan user).custom_user_id = user.id)))) := by
  constructor
  · intro h
    unfold create_checkout_session
    rw [h]
  · intro plan hplan
    constructor
    · intro hvar
      unfold create_checkout_session
      rw [hplan]
      simp [hvar]
    · intro hvar
      refine ⟨?_, ?_, rfl, rfl⟩
      · intro e he
        unfold create_checkout_session
        rw [hplan]
        simp [hvar, hkey, hsid, he]
      · intro url hu
        unfold create_checkout_session
        rw [hplan]
        simp [hvar, hkey, hsid, hu]

/-- Counterexample to C8 as stated: the plan matches and is payment-configured
and the upstream would succeed, yet the endpoint answers 500 (API key/store id
not configured) — an outcome outside the claim's 404 / 502 / URL trichotomy. -/
theorem create_checkout_session_counterexample :
    create_checkout_session cfgNoKey [planW] userW "pro" upstreamOk
      = .http500 "LemonSqueezy API key or store ID not configured" := by decide

/-- Witness for C8 (amended): with configured settings the hosted URL is
returned. -/
theorem create_checkout_session_spec_witness :
    create_checkout_session cfgW [planW] userW "pro" upstreamOk = .ok "pay.example/x" :=
  (((create_checkout_session_spec cfgW [planW] userW "pro" upstreamOk
    (by decide) (by decide)).2 planW (by decide)).2 (by decide)).2.1 "pay.example/x" rfl

/-- Structure of every successful event processing step: users and plans are
never touched, and the subscription table either keeps its owner column
unchanged or grows by a single row whose owner had no row before. -/
theorem processEvent_ok_shape (isoparse : String → Option DateTime) (p : Payload)
    (s : Store) (r : Resp) (s' : Store)
    (h : processEvent isoparse p s = .ok (r, s')) :
    s'.users = s.users ∧ s'.plans = s.plans
    ∧ (s'.subs.map (fun sb => sb.user_id) = s.subs.map (fun sb => sb.user_id)
       ∨ ∃ x, s'.subs = s.subs ++ [x]
           ∧ s.subs.find? (fun sb => sb.user_id == x.user_id) = none) := by
  cases hcd : payloadCustomData p with
  | none =>
    rw [processEvent_no_custom_data isoparse p s hcd] at h
    exact absurd h (by simp)
  | some cd =>
    by_cases h1 : payloadEventName p = some "order_created"
    · rw [processEvent_dispatch_order isoparse p s cd hcd h1] at h
      injection h with h'
      injection h' with hr hs
      subst hs
      exact ⟨rfl, rfl, Or.inl rfl⟩
    by_cases h2 : payloadEventName p = some "subscription_created"
    · rw [processEvent_dispatch_created isoparse p s cd hcd h2] at h
      cases hfsi : (payloadAttrs p).first_subscription_item with
      | none =>
        rw [handleSubscriptionCreated_no_item isoparse (payloadAttrs p) s _ hfsi] at h
        exact absurd h (by simp)
      | some fsi =>
        cases hplan : s.plans.find?
            (fun q => q.lemon_variant_id == (payloadAttrs p).variant_id) with
        | none =>
          rw [handleSubscriptionCreated_no_plan isoparse (payloadAttrs p) s _ fsi
            hfsi hplan] at h
          injection h with h'
          injection h' with hr hs
          subst hs
          exact ⟨rfl, rfl, Or.inl rfl⟩
        | some plan =>
          cases hu : find_user s.users cd.user_id (payloadAttrs p).customer_id
              (payloadAttrs p).user_email with
          | none =>
            rw [hu, handleSubscriptionCreated_no_user isoparse (payloadAttrs p) s fsi
              plan hfsi hplan] at h
            injection h with h'
            injection h' with hr hs
            subst hs
            exact ⟨rfl, rfl, Or.inl rfl⟩
          | some user =>
            rw [hu] at h
            cases hsub : s.subs.find? (fun sb => sb.user_id == user.id) with
            | none =>
              rw [handleSubscriptionCreated_insert isoparse (payloadAttrs p) s fsi plan
                user hfsi hplan hsub] at h
              injection h with h'
              injection h' with hr hs
              subst hs
              exact ⟨rfl, rfl, Or.inr
                ⟨newSubscriptionRow isoparse (payloadAttrs p) plan fsi.subscription_id
                  user s, rfl, hsub⟩⟩
            | some x =>
              rw [handleSubscriptionCreated_update isoparse (payloadAttrs p) s fsi plan
                user x hfsi hplan hsub] at h
              injection h with h'
              injection h' with hr hs
              subst hs
              exact ⟨rfl, rfl, Or.inl (map_updateFirst _ (fun y => rfl))⟩
    by_cases h3 : payloadEventName p = some "subscription_payment_success"
    · rw [processEvent_dispatch_payment isoparse p s cd hcd h3] at h
      unfold handlePaymentSuccess at h
      injection h with h'
      injection h' with hr hs
      subst hs
      exact ⟨rfl, rfl, Or.inl rfl⟩
    by_cases h4 : payloadEventName p = some "subscription_updated"
    · rw [processEvent_dispatch_updated isoparse p s cd hcd h4] at h
      cases hfsi : (payloadAttrs p).first_subscription_item with
      | none =>
        rw [handleSubscriptionUpdated_no_item isoparse (payloadAttrs p) s hfsi] at h
        exact absurd h (by simp)
      | some fsi =>
        cases hlook : lookupSubscription s.subs fsi.subscription_id with
        | none =>
          rw [handleSubscriptionUpdated_not_found isoparse (payloadAttrs p) s fsi
            hfsi hlook] at h
          injection h with h'
          injection h' with hr hs
          subst hs
          exact ⟨rfl, rfl, Or.inl rfl⟩
        | some x =>
          rw [handleSubscriptionUpdated_found isoparse (payloadAttrs p) s fsi x
            hfsi hlook] at h
          injection h with h'
          injection h' with hr hs
          subst hs
          exact ⟨rfl, rfl, Or.inl (map_updateFirst _ (fun y => rfl))⟩
    by_cases h5 : payloadEventName p = some "subscription_cancelled"
    · rw [processEvent_dispatch_cancelled isoparse p s cd hcd h5] at h
      cases hlook : lookupSubscription s.subs
          (pyOr (payloadAttrs p).id (payloadAttrs p).subscription_id) with
      | none =>
        rw [handleStatusEvent_not_found s _ _ hlook] at h
        injection h with h'
        injection h' with hr hs
        subst hs
        exact ⟨rfl, rfl, Or.inl rfl⟩
      | some x =>
        rw [handleStatusEvent_found s _ _ x hlook] at h
        injection h with h'
        injection h' with hr hs
        subst hs
        exact ⟨rfl, rfl, Or.inl (map_updateFirst _ (fun y => rfl))⟩
    by_cases h6 : payloadEventName p = some "subscription_expired"
    · rw [processEvent_dispatch_expired isoparse p s cd hcd h6] at h
      cases hlook : lookupSubscription s.subs
          (pyOr (payloadAttrs p).id (payloadAttrs p).subscription_id) with
      | none =>
        rw [handleStatusEvent_not_found s _ _ hlook] at h
        injection h with h'
        injection h' with hr hs
        subst hs
        exact ⟨rfl, rfl, Or.inl rfl⟩
      | some x =>
        rw [handleStatusEvent_found s _ _ x hlook] at h
        injection h with h'
        injection h' with hr hs
        subst hs
        exact ⟨rfl, rfl, Or.inl (map_updateFirst _ (fun y => rfl))⟩
    by_cases h7 : payloadEventName p = some "subscription_payment_failed"
    · rw [processEvent_dispatch_payment_failed isoparse p s cd hcd h7] at h
      cases hlook : lookupSubscription s.subs (payloadAttrs p).subscription_id with
      | none =>
        rw [handleStatusEvent_not_found s _ _ hlook] at h
        injection h with h'
        injection h' with hr hs
        subst hs
        exact ⟨rfl, rfl, Or.inl rfl⟩
      | some x =>
        rw [handleStatusEvent_found s _ _ x hlook] at h
        injection h with h'
        injection h' with hr hs
        subst hs
        exact ⟨rfl, rfl, Or.inl (map_updateFirst _ (fun y => rfl))⟩
    · rw [processEvent_dispatch_unknown isoparse p s cd hcd ?_] at h
      · injection h with h'
        injection h' with hr hs
        subst hs
        exact ⟨rfl, rfl, Or.inl rfl⟩
      · intro e he
        simp only [List.mem_cons, List.not_mem_nil, or_false] at he
        rcases he with rfl | rfl | rfl | rfl | rfl | rfl | rfl <;> assumption

/-- C9: webhook processing never mutates any User row — whenever the handler
commits a store, its user table (every row, every field, including the
external customer identifier) is exactly the one it started from; rejected or
crashed requests commit nothing at all. -/
theorem webhook_never_mutates_users (secret : Option String)
    (hmacSha256Hex : String → String → String) (isoparse : String → Option DateTime)
    (req : RawRequest) (s : Store) (r : Resp) (s' : Store)
    (h : lemonsqueezy_webhook secret hmacSha256Hex isoparse req s = .http200 r s') :
    s'.users = s.users := by
  unfold lemonsqueezy_webhook at h
  by_cases h1 : (!truthy secret || !truthy req.signature) = true
  · rw [if_pos h1] at h
    exact absurd h (by simp)
  · rw [if_neg h1] at h
    by_cases h2 : (!(hmacSha256Hex (secret.getD "") req.rawBody
        == req.signature.getD "")) = true
    · rw [if_pos h2] at h
      exact absurd h (by simp)
    · rw [if_neg h2] at h
      unfold dispatchJson at h
      cases hj : req.json with
      | none =>
        rw [hj] at h
        exact absurd h (by simp)
      | some payload =>
        rw [hj] at h
        dsimp only at h
        cases hpe : processEvent isoparse payload s with
        | ok rs =>
          cases rs with
          | mk r₀ s₀ =>
            rw [hpe] at h
            dsimp only at h
            injection h with hr hs
            subst hs
            exact (processEvent_ok_shape isoparse payload s r₀ s₀ hpe).1
        | error e =>
          rw [hpe] at h
          exact absurd h (by simp)

/-- Witness for C9: a committing run (payment insertion) leaves the user table
untouched. -/
theorem webhook_never_mutates_users_witness :
    ∃ s', lemonsqueezy_webhook (some "sec") hmacTest isoparseNone reqPayW storeW
        = .http200 .ok s'
      ∧ s'.users = storeW.users := by
  have hrun : lemonsqueezy_webhook (some "sec") hmacTest isoparseNone reqPayW storeW
      = .http200 .ok { storeW with
          payments := [paymentRow isoparseNone (payloadAttrs payloadOrphanPay)
            (some userW) storeW],
          nextId := 1 } := by decide
  exact ⟨_, hrun, webhook_never_mutates_users (some "sec") hmacTest isoparseNone
    reqPayW storeW .ok _ hrun⟩

theorem filter_eq_nil_of_find?_eq_none {α : Type} {l : List α} {p : α → Bool}
    (h : l.find? p = none) : l.filter p = [] := by
  rw [List.filter_eq_nil_iff]
  exact fun a ha => List.find?_eq_none.mp h a ha

/-- Outcome of a fully resolvable `subscription_created` event on a store
satisfying the one-row-per-user invariant: acknowledged, users/plans
untouched, invariant preserved, and the user owns exactly one row carrying the
event's plan, external id, status and parsed dates. -/
theorem created_event_result (isoparse : String → Option DateTime) (p : Payload)
    (s : Store) (cd : CustomData) (fsi : FirstSubItem) (plan : SubscriptionPlan)
    (user : User)
    (hev : payloadEventName p = some "subscription_created")
    (hcd : payloadCustomData p = some cd)
    (hfsi : (payloadAttrs p).first_subscription_item = some fsi)
    (hplan : s.plans.find? (fun q => q.lemon_variant_id == (payloadAttrs p).variant_id)
      = some plan)
    (hu : find_user s.users cd.user_id (payloadAttrs p).customer_id
      (payloadAttrs p).user_email = some user)
    (hnd : atMostOnePerUser s) :
    ∃ s', processEvent isoparse p s = .ok (.ok, s')
      ∧ s'.users = s.users ∧ s'.plans = s.plans ∧ atMostOnePerUser s'
      ∧ ∃ row, s'.subs.filter (fun sb => sb.user_id == user.id) = [row]
          ∧ row.user_id = user.id
          ∧ row.subscription_plan_id = plan.id
          ∧ row.lemon_subscription_id = fsi.subscription_id
          ∧ row.status = (payloadAttrs p).status
          ∧ row.start_date = parse_dt isoparse (payloadAttrs p).created_at
          ∧ row.current_period_end = parse_dt isoparse (payloadAttrs p).renews_at
          ∧ row.trial_end = parse_dt isoparse (payloadAttrs p).trial_ends_at := by
  cases hsub : s.subs.find? (fun sb => sb.user_id == user.id) with
  | none =>
    have h1 : processEvent isoparse p s = .ok (.ok, { s with
        subs := s.subs ++ [newSubscriptionRow isoparse (payloadAttrs p) plan
          fsi.subscription_id user s],
        nextId := s.nextId + 1 }) := by
      rw [processEvent_dispatch_created isoparse p s cd hcd hev, hu,
        handleSubscriptionCreated_insert isoparse (payloadAttrs p) s fsi plan user
          hfsi hplan hsub]
    have prow : ((newSubscriptionRow isoparse (payloadAttrs p) plan fsi.subscription_id
        user s).user_id == user.id) = true := beq_self_eq_true _
    refine ⟨_, h1, rfl, rfl, ?_, ?_⟩
    · unfold atMostOnePerUser
      show ((s.subs ++ [_]).map _).Nodup
      rw [List.map_append, List.nodup_append]
      refine ⟨hnd, List.nodup_singleton _, ?_⟩
      intro a ha hb
      simp only [List.map_cons, List.map_nil, List.mem_singleton] at hb
      subst hb
      obtain ⟨sb, hsb, hsbe⟩ := List.mem_map.mp ha
      exact List.find?_eq_none.mp hsub sb hsb (by rw [hsbe]; exact beq_self_eq_true _)
    · refine ⟨newSubscriptionRow isoparse (payloadAttrs p) plan fsi.subscription_id
        user s, ?_, rfl, rfl, rfl, rfl, rfl, rfl, rfl⟩
      show ((s.subs ++ [_]).filter _) = _
      rw [List.filter_append, filter_eq_nil_of_find?_eq_none hsub, List.nil_append]
      simp [prow]
  | some x =>
    have h1 : processEvent isoparse p s = .ok (.ok, { s with
        subs := (updateFirst s.subs (fun sb => sb.user_id == user.id)
          (applyCreatedFields isoparse (payloadAttrs p) plan.id fsi.subscription_id)) }) := by
      rw [processEvent_dispatch_created isoparse p s cd hcd hev, hu,
        handleSubscriptionCreated_update isoparse (payloadAttrs p) s fsi plan user x
          hfsi hplan hsub]
    have hfilter : s.subs.filter (fun sb => sb.user_id == user.id) = [x] :=
      filter_eq_singleton_of_nodup_keyed
        (fun a b hpa hpb => (eq_of_beq hpa).trans (eq_of_beq hpb).symm) hnd hsub
    refine ⟨_, h1, rfl, rfl, ?_, ?_⟩
    · unfold atMostOnePerUser
      show ((updateFirst s.subs _ _).map _).Nodup
      rw [@map_updateFirst UserSubscription String s.subs
        (fun sb => sb.user_id == user.id)
        (applyCreatedFields isoparse (payloadAttrs p) plan.id fsi.subscription_id)
        (fun sb => sb.user_id) (fun y => rfl)]
      exact hnd
    · refine ⟨applyCreatedFields isoparse (payloadAttrs p) plan.id fsi.subscription_id x,
        ?_, ?_, rfl, rfl, rfl, rfl, rfl, rfl⟩
      · exact filter_updateFirst_of_singleton (fun y => rfl) hfilter
      · show x.user_id = user.id
        have hx := @List.find?_some _ (fun sb => sb.user_id == user.id) x s.subs hsub
        exact eq_of_beq hx

/-- C2: processing any event preserves the at-most-one-UserSubscription-per-
user invariant, and two `subscription_created` events for the same user (with
possibly different plans) leave that user with exactly one row carrying the
second event's plan — never two rows. -/
theorem at_most_one_subscription_per_user (isoparse : String → Option DateTime) :
    (∀ (p : Payload) (s : Store) (r : Resp) (s' : Store), atMostOnePerUser s →
      processEvent isoparse p s = .ok (r, s') → atMostOnePerUser s')
    ∧ (∀ (p₁ p₂ : Payload) (s : Store) (cd₁ cd₂ : CustomData) (fsi₁ fsi₂ : FirstSubItem)
        (plan₁ plan₂ : SubscriptionPlan) (user : User),
        payloadEventName p₁ = some "subscription_created" →
        payloadCustomData p₁ = some cd₁ →
        (payloadAttrs p₁).first_subscription_item = some fsi₁ →
        s.plans.find? (fun q => q.lemon_variant_id == (payloadAttrs p₁).variant_id)
          = some plan₁ →
        find_user s.users cd₁.user_id (payloadAttrs p₁).customer_id
          (payloadAttrs p₁).user_email = some user →
        payloadEventName p₂ = some "subscription_created" →
        payloadCustomData p₂ = some cd₂ →
        (payloadAttrs p₂).first_subscription_item = some fsi₂ →
        s.plans.find? (fun q => q.lemon_variant_id == (payloadAttrs p₂).variant_id)
          = some plan₂ →
        find_user s.users cd₂.user_id (payloadAttrs p₂).customer_id
          (payloadAttrs p₂).user_email = some user →
        atMostOnePerUser s →
        ∃ s₁ s₂ row, processEvent isoparse p₁ s = .ok (.ok, s₁)
          ∧ processEvent isoparse p₂ s₁ = .ok (.ok, s₂)
          ∧ s₂.subs.filter (fun sb => sb.user_id == user.id) = [row]
          ∧ row.subscription_plan_id = plan₂.id) := by
  constructor
  · intro p s r s' hnd h
    obtain ⟨hus, hps, hsh⟩ := processEvent_ok_shape isoparse p s r s' h
    rcases hsh with hmap | ⟨x, hap, hfind⟩
    · unfold atMostOnePerUser at hnd ⊢
      rw [hmap]
      exact hnd
    · unfold atMostOnePerUser at hnd ⊢
      rw [hap, List.map_append, List.nodup_append]
      refine ⟨hnd, List.nodup_singleton _, ?_⟩
      intro a ha hb
      simp only [List.map_cons, List.map_nil, List.mem_singleton] at hb
      subst hb
      obtain ⟨sb, hsb, hsbe⟩ := List.mem_map.mp ha
      exact List.find?_eq_none.mp hfind sb hsb (by rw [hsbe]; exact beq_self_eq_true _)
  · intro p₁ p₂ s cd₁ cd₂ fsi₁ fsi₂ plan₁ plan₂ user hev₁ hcd₁ hfsi₁ hplan₁ hu₁
      hev₂ hcd₂ hfsi₂ hplan₂ hu₂ hnd
    obtain ⟨s₁, h1, hus, hps, hnd₁, -⟩ := created_event_result isoparse p₁ s cd₁ fsi₁
      plan₁ user hev₁ hcd₁ hfsi₁ hplan₁ hu₁ hnd
    have hplan₂' : s₁.plans.find?
        (fun q => q.lemon_variant_id == (payloadAttrs p₂).variant_id) = some plan₂ := by
      rw [hps]
      exact hplan₂
    have hu₂' : find_user s₁.users cd₂.user_id (payloadAttrs p₂).customer_id
        (payloadAttrs p₂).user_email = some user := by
      rw [hus]
      exact hu₂
    obtain ⟨s₂, h2, -, -, -, row, hfil, -, hrowplan, -⟩ := created_event_result isoparse
      p₂ s₁ cd₂ fsi₂ plan₂ user hev₂ hcd₂ hfsi₂ hplan₂' hu₂' hnd₁
    exact ⟨s₁, s₂, row, h1, h2, hfil, hrowplan⟩

/-- Witness for C2: two concrete creations for the same user end in one row on
the second plan. -/
theorem at_most_one_subscription_per_user_witness :
    ∃ s₁ s₂ row, processEvent isoparseNone payloadBadDate storeTwoPlans = .ok (.ok, s₁)
      ∧ processEvent isoparseNone payloadCreated2 s₁ = .ok (.ok, s₂)
      ∧ s₂.subs.filter (fun sb => sb.user_id == userW.id) = [row]
      ∧ row.subscription_plan_id = planW2.id :=
  (at_most_one_subscription_per_user isoparseNone).2 payloadBadDate payloadCreated2
    storeTwoPlans { user_id := some "u1" } { user_id := some "u1" }
    { subscription_id := some "sub1" } { subscription_id := some "sub2" }
    planW planW2 userW rfl rfl rfl (by decide) (by decide) rfl rfl rfl (by decide)
    (by decide) (by decide)

/-- A `subscription_created` event whose update pass would rewrite the matched
row to itself leaves the store exactly as it is. -/
theorem created_update_noop (isoparse : String → Option DateTime) (p : Payload)
    (s₁ : Store) (cd : CustomData) (fsi : FirstSubItem) (plan : SubscriptionPlan)
    (user : User) (row : UserSubscription)
    (hev : payloadEventName p = some "subscription_created")
    (hcd : payloadCustomData p = some cd)
    (hfsi : (payloadAttrs p).first_subscription_item = some fsi)
    (hplan : s₁.plans.find? (fun q => q.lemon_variant_id == (payloadAttrs p).variant_id)
      = some plan)
    (hu : find_user s₁.users cd.user_id (payloadAttrs p).customer_id
      (payloadAttrs p).user_email = some user)
    (hsub : s₁.subs.find? (fun sb => sb.user_id == user.id) = some row)
    (hfix : updateFirst s₁.subs (fun sb => sb.user_id == user.id)
      (applyCreatedFields isoparse (payloadAttrs p) plan.id fsi.subscription_id)
      = s₁.subs) :
    processEvent isoparse p s₁ = .ok (.ok, s₁) := by
  rw [processEvent_dispatch_created isoparse p s₁ cd hcd hev, hu,
    handleSubscriptionCreated_update isoparse (payloadAttrs p) s₁ fsi plan user row
      hfsi hplan hsub, hfix]

/-- C1: a fully resolvable `subscription_created` event is idempotent — the
store reached after processing it once is a fixed point of processing it
again — and that store holds exactly one subscription row for the user, whose
plan reference, external subscription id, status, start date, current period
end and trial end are the event-derived values. -/
theorem subscription_created_idempotent (isoparse : String → Option DateTime)
    (p : Payload) (s : Store) (cd : CustomData) (fsi : FirstSubItem)
    (plan : SubscriptionPlan) (user : User)
    (hev : payloadEventName p = some "subscription_created")
    (hcd : payloadCustomData p = some cd)
    (hfsi : (payloadAttrs p).first_subscription_item = some fsi)
    (hplan : s.plans.find? (fun q => q.lemon_variant_id == (payloadAttrs p).variant_id)
      = some plan)
    (hu : find_user s.users cd.user_id (payloadAttrs p).customer_id
      (payloadAttrs p).user_email = some user)
    (hnd : atMostOnePerUser s) :
    ∃ s₁, processEvent isoparse p s = .ok (.ok, s₁)
      ∧ processEvent isoparse p s₁ = .ok (.ok, s₁)
      ∧ ∃ row, s₁.subs.filter (fun sb => sb.user_id == user.id) = [row]
          ∧ row.subscription_plan_id = plan.id
          ∧ row.lemon_subscription_id = fsi.subscription_id
          ∧ row.status = (payloadAttrs p).status
          ∧ row.start_date = parse_dt isoparse (payloadAttrs p).created_at
          ∧ row.current_period_end = parse_dt isoparse (payloadAttrs p).renews_at
          ∧ row.trial_end = parse_dt isoparse (payloadAttrs p).trial_ends_at := by
  cases hsub : s.subs.find? (fun sb => sb.user_id == user.id) with
  | none =>
    have hall : ∀ y ∈ s.subs, (fun sb => sb.user_id == user.id) y = false :=
      fun y hy => Bool.eq_false_iff.mpr (List.find?_eq_none.mp hsub y hy)
    have prow : ((newSubscriptionRow isoparse (payloadAttrs p) plan fsi.subscription_id
        user s).user_id == user.id) = true := beq_self_eq_true _
    have h1 : processEvent isoparse p s = .ok (.ok, { s with
        subs := s.subs ++ [newSubscriptionRow isoparse (payloadAttrs p) plan
          fsi.subscription_id user s],
        nextId := s.nextId + 1 }) := by
      rw [processEvent_dispatch_created isoparse p s cd hcd hev, hu,
        handleSubscriptionCreated_insert isoparse (payloadAttrs p) s fsi plan user
          hfsi hplan hsub]
    refine ⟨_, h1, ?_, ?_⟩
    · refine created_update_noop isoparse p _ cd fsi plan user
        (newSubscriptionRow isoparse (payloadAttrs p) plan fsi.subscription_id user s)
        hev hcd hfsi hplan hu ?_ ?_
      · show (s.subs ++ [_]).find? _ = _
        rw [find?_append_of_forall_not _ hall]
        exact List.find?_cons_of_pos _ prow
      · show updateFirst (s.subs ++ [_]) _ _ = s.subs ++ [_]
        rw [updateFirst_append_of_forall_not _ _ hall, updateFirst_cons, if_pos prow]
        rfl
    · refine ⟨newSubscriptionRow isoparse (payloadAttrs p) plan fsi.subscription_id
        user s, ?_, rfl, rfl, rfl, rfl, rfl, rfl⟩
      show ((s.subs ++ [_]).filter _) = _
      rw [List.filter_append, filter_eq_nil_of_find?_eq_none hsub, List.nil_append]
      simp [prow]
  | some x =>
    have hfilter : s.subs.filter (fun sb => sb.user_id == user.id) = [x] :=
      filter_eq_singleton_of_nodup_keyed
        (fun a b hpa hpb => (eq_of_beq hpa).trans (eq_of_beq hpb).symm) hnd hsub
    have h1 : processEvent isoparse p s = .ok (.ok, { s with
        subs := (updateFirst s.subs (fun sb => sb.user_id == user.id)
          (applyCreatedFields isoparse (payloadAttrs p) plan.id fsi.subscription_id)) }) := by
      rw [processEvent_dispatch_created isoparse p s cd hcd hev, hu,
        handleSubscriptionCreated_update isoparse (payloadAttrs p) s fsi plan user x
          hfsi hplan hsub]
    refine ⟨_, h1, ?_, ?_⟩
    · refine created_update_noop isoparse p _ cd fsi plan user
        (applyCreatedFields isoparse (payloadAttrs p) plan.id fsi.subscription_id x)
        hev hcd hfsi hplan hu ?_ ?_
      · show ((updateFirst s.subs _ _).find? _) = _
        rw [@find?_updateFirst _ s.subs (fun sb => sb.user_id == user.id)
          (applyCreatedFields isoparse (payloadAttrs p) plan.id fsi.subscription_id)
          (fun y => rfl), hsub]
        rfl
      · show updateFirst (updateFirst s.subs _ _) _ _ = updateFirst s.subs _ _
        exact @updateFirst_updateFirst _ s.subs (fun sb => sb.user_id == user.id)
          (applyCreatedFields isoparse (payloadAttrs p) plan.id fsi.subscription_id)
          (fun y => rfl) (fun y => rfl)
    · refine ⟨applyCreatedFields isoparse (payloadAttrs p) plan.id fsi.subscription_id x,
        ?_, rfl, rfl, rfl, rfl, rfl, rfl⟩
      show ((updateFirst s.subs _ _).filter _) = _
      exact filter_updateFirst_of_singleton (fun y => rfl) hfilter

/-- Witness for C1 at a concrete store and payload. -/
theorem subscription_created_idempotent_witness :
    ∃ s₁, processEvent isoparseNone payloadBadDate storeW = .ok (.ok, s₁)
      ∧ processEvent isoparseNone payloadBadDate s₁ = .ok (.ok, s₁)
      ∧ ∃ row, s₁.subs.filter (fun sb => sb.user_id == userW.id) = [row]
          ∧ row.subscription_plan_id = planW.id
          ∧ row.lemon_subscription_id =
              ({ subscription_id := some "sub1" } : FirstSubItem).subscription_id
          ∧ row.status = (payloadAttrs payloadBadDate).status
          ∧ row.start_date = parse_dt isoparseNone (payloadAttrs payloadBadDate).created_at
          ∧ row.current_period_end =
              parse_dt isoparseNone (payloadAttrs payloadBadDate).renews_at
          ∧ row.trial_end = parse_dt isoparseNone (payloadAttrs payloadBadDate).trial_ends_at :=
  subscription_created_idempotent isoparseNone payloadBadDate storeW
    { user_id := some "u1" } { subscription_id := some "sub1" } planW userW
    rfl rfl rfl (by decide) (by decide) (by decide)

theorem processN_succ (isoparse : String → Option DateTime) (p : Payload) (s : Store)
    (n : Nat) :
    processN isoparse p s (n + 1) =
      match processN isoparse p s n with
      | some s₁ =>
        match processEvent isoparse p s₁ with
        | .ok (_, s₂) => some s₂
        | .error _ => none
      | none => none := rfl

/-- One `subscription_payment_success` delivery: always acknowledged, appends
exactly the built Payment row, bumps the id counter, touches nothing else. -/
theorem payment_step (isoparse : String → Option DateTime) (p : Payload)
    (cd : CustomData)
    (hev : payloadEventName p = some "subscription_payment_success")
    (hcd : payloadCustomData p = some cd) (s : Store) :
    processEvent isoparse p s = .ok (.ok, { s with
      payments := (s.payments ++ [paymentRow isoparse (payloadAttrs p)
        (find_user s.users cd.user_id (payloadAttrs p).customer_id
          (payloadAttrs p).user_email) s]),
      nextId := s.nextId + 1 }) := by
  rw [processEvent_dispatch_payment isoparse p s cd hcd hev]
  rfl

/-- C4 (amended): every `subscription_payment_success` delivery inserts one
new Payment row with status "succeeded" and the event's amount, currency,
paid-at and receipt URL; the row's user is the event-resolved user if the
identity hints resolve, else the matched subscription's owner; when the
external subscription id matches nothing the subscription reference is null —
and the user reference is null too when the identity hints also fail; no other
table changes, and N deliveries produce exactly N new rows while the earlier
rows stay untouched. -/
theorem payment_success_append_only (isoparse : String → Option DateTime)
    (p : Payload) (s : Store) (cd : CustomData)
    (hev : payloadEventName p = some "subscription_payment_success")
    (hcd : payloadCustomData p = some cd) :
    (∃ pm s', processEvent isoparse p s = .ok (.ok, s')
      ∧ s'.payments = s.payments ++ [pm]
      ∧ s'.subs = s.subs ∧ s'.users = s.users ∧ s'.plans = s.plans
      ∧ pm.status = "succeeded"
      ∧ pm.amount_in_cents = (payloadAttrs p).total
      ∧ pm.currency = (payloadAttrs p).currency.getD "usd"
      ∧ pm.paid_at = parse_dt isoparse (payloadAttrs p).created_at
      ∧ pm.lemon_order_id = (payloadAttrs p).order_id
      ∧ pm.receipt_url = (match (payloadAttrs p).urls with
          | some u => u.invoice_url
          | none => none)
      ∧ pm.user_subscription_id
          = (lookupSubscription s.subs (payloadAttrs p).subscription_id).map
              (fun sb => sb.id)
      ∧ pm.user_id
          = (paymentUser s.users
              (find_user s.users cd.user_id (payloadAttrs p).customer_id
                (payloadAttrs p).user_email)
              (lookupSubscription s.subs (payloadAttrs p).subscription_id)).map
              (fun u => u.id)
      ∧ (lookupSubscription s.subs (payloadAttrs p).subscription_id = none →
          pm.user_subscription_id = none
          ∧ (find_user s.users cd.user_id (payloadAttrs p).customer_id
              (payloadAttrs p).user_email = none → pm.user_id = none)))
    ∧ (∀ n, ∃ sn, processN isoparse p s n = some sn
        ∧ sn.payments.length = s.payments.length + n
        ∧ sn.payments.take s.payments.length = s.payments) := by
  constructor
  · refine ⟨paymentRow isoparse (payloadAttrs p)
      (find_user s.users cd.user_id (payloadAttrs p).customer_id
        (payloadAttrs p).user_email) s, _,
      payment_step isoparse p cd hev hcd s,
      rfl, rfl, rfl, rfl, rfl, rfl, rfl, rfl, rfl, rfl, rfl, rfl, ?_⟩
    intro hn
    constructor
    · show (lookupSubscription s.subs (payloadAttrs p).subscription_id).map
        (fun sb => sb.id) = none
      rw [hn]
      rfl
    · intro hf
      show (paymentUser s.users
        (find_user s.users cd.user_id (payloadAttrs p).customer_id
          (payloadAttrs p).user_email)
        (lookupSubscription s.subs (payloadAttrs p).subscription_id)).map
          (fun u => u.id) = none
      rw [hn, hf]
      rfl
  · intro n
    induction n with
    | zero => exact ⟨s, rfl, rfl, List.take_length s.payments⟩
    | succ k ih =>
      obtain ⟨sk, hk, hlen, htake⟩ := ih
      have hk1 : processN isoparse p s (k + 1) = some { sk with
          payments := (sk.payments ++ [paymentRow isoparse (payloadAttrs p)
            (find_user sk.users cd.user_id (payloadAttrs p).customer_id
              (payloadAttrs p).user_email) sk]),
          nextId := sk.nextId + 1 } := by
        rw [processN_succ, hk]
        dsimp only
        rw [payment_step isoparse p cd hev hcd sk]
      refine ⟨_, hk1, ?_, ?_⟩
      · show (sk.payments ++ [_]).length = s.payments.length + (k + 1)
        rw [List.length_append, hlen]
        rfl
      · show (sk.payments ++ [_]).take s.payments.length = s.payments
        rw [List.take_append_of_le_length (by rw [hlen]; omega), htake]

/-- Counterexample to C4 as stated: a payment event whose subscription id
matches nothing but whose email hint resolves produces a Payment row whose
user reference is NOT null (the claim asserts null user and subscription
references whenever the subscription is unknown). -/
theorem payment_success_counterexample :
    (match processEvent isoparseNone payloadOrphanPay storeW with
      | .ok (_, s') => some (s'.payments.map (fun pm => (pm.user_id, pm.user_subscription_id)))
      | .error _ => none) = some [(some "u1", none)] := by decide

/-- Witness for C4 (amended): two concrete redeliveries yield exactly two
Payment rows and preserve the (empty) prefix. -/
theorem payment_success_append_only_witness :
    ∃ sn, processN isoparseNone payloadOrphanPay storeW 2 = some sn
      ∧ sn.payments.length = storeW.payments.length + 2
      ∧ sn.payments.take storeW.payments.length = storeW.payments :=
  (payment_success_append_only isoparseNone payloadOrphanPay storeW
    { user_id := none } rfl rfl).2 2

theorem dispatchJson_ok (isoparse : String → Option DateTime) (p : Payload) (s : Store)
    (r : Resp) (s' : Store) (h : processEvent isoparse p s = .ok (r, s')) :
    dispatchJson isoparse (some p) s = .http200 r s' := by
  unfold dispatchJson
  dsimp only
  rw [h]

/-- Counterexample to C3 as stated: a correctly signed `subscription_updated`
request whose subscription id appears only at top level (a shape the
external-interface contract lists) makes the handler raise an
`AttributeError` — HTTP 500, not a 200-equivalent acknowledgment — even
though the referenced subscription exists. -/
theorem webhook_ack_counterexample :
    lemonsqueezy_webhook (some "sec") hmacTest isoparseNone reqUpdTopLevel storeSubW
      = .http500 := by decide

/-- C3 (amended): every correctly signed request whose payload carries
`meta.custom_data` and — for `subscription_created` / `subscription_updated`
events — the nested `first_subscription_item` object is acknowledged with
HTTP 200, and in every reference-not-found case (unknown plan or user on
creation, unknown subscription id on update/cancel/expire/payment-failure)
the store is left unchanged. -/
theorem webhook_acks_and_soft_skips (secret : Option String)
    (hmacSha256Hex : String → String → String) (isoparse : String → Option DateTime)
    (req : RawRequest) (s : Store) (p : Payload) (cd : CustomData)
    (hsec : truthy secret = true)
    (hsigt : truthy req.signature = true)
    (hsig : req.signature.getD "" = hmacSha256Hex (secret.getD "") req.rawBody)
    (hjson : req.json = some p)
    (hcd : payloadCustomData p = some cd)
    (hfsi_c : payloadEventName p = some "subscription_created" →
      (payloadAttrs p).first_subscription_item ≠ none)
    (hfsi_u : payloadEventName p = some "subscription_updated" →
      (payloadAttrs p).first_subscription_item ≠ none) :
    ∃ r s', lemonsqueezy_webhook secret hmacSha256Hex isoparse req s = .http200 r s'
      ∧ (payloadEventName p = some "subscription_created" →
          (s.plans.find? (fun q => q.lemon_variant_id == (payloadAttrs p).variant_id)
              = none → s' = s)
          ∧ (find_user s.users cd.user_id (payloadAttrs p).customer_id
              (payloadAttrs p).user_email = none → s' = s))
      ∧ (∀ fsi, payloadEventName p = some "subscription_updated" →
          (payloadAttrs p).first_subscription_item = some fsi →
          lookupSubscription s.subs fsi.subscription_id = none → s' = s)
      ∧ (payloadEventName p = some "subscription_cancelled" →
          lookupSubscription s.subs
            (pyOr (payloadAttrs p).id (payloadAttrs p).subscription_id) = none → s' = s)
      ∧ (payloadEventName p = some "subscription_expired" →
          lookupSubscription s.subs
            (pyOr (payloadAttrs p).id (payloadAttrs p).subscription_id) = none → s' = s)
      ∧ (payloadEventName p = some "subscription_payment_failed" →
          lookupSubscription s.subs (payloadAttrs p).subscription_id = none → s' = s) := by
  have hw : lemonsqueezy_webhook secret hmacSha256Hex isoparse req s
      = dispatchJson isoparse req.json s := by
    unfold lemonsqueezy_webhook
    rw [if_neg (by simp [hsec, hsigt]), if_neg (by rw [hsig]; simp)]
  rw [hw, hjson]
  by_cases h1 : payloadEventName p = some "order_created"
  · exact ⟨.ok, s, dispatchJson_ok isoparse p s _ _
      (processEvent_dispatch_order isoparse p s cd hcd h1),
      fun hev' => absurd (h1.symm.trans hev') (by decide),
      fun fsi hev' => absurd (h1.symm.trans hev') (by decide),
      fun hev' => absurd (h1.symm.trans hev') (by decide),
      fun hev' => absurd (h1.symm.trans hev') (by decide),
      fun hev' => absurd (h1.symm.trans hev') (by decide)⟩
  by_cases h2 : payloadEventName p = some "subscription_created"
  · obtain ⟨fsi, hfsio⟩ := Option.ne_none_iff_exists'.mp (hfsi_c h2)
    cases hplan : s.plans.find?
        (fun q => q.lemon_variant_id == (payloadAttrs p).variant_id) with
    | none =>
      refine ⟨.err "Plan not found", s, ?_,
        fun _ => ⟨fun _ => rfl, fun _ => rfl⟩,
        fun fsi' hev' => absurd (h2.symm.trans hev') (by decide),
        fun hev' => absurd (h2.symm.trans hev') (by decide),
        fun hev' => absurd (h2.symm.trans hev') (by decide),
        fun hev' => absurd (h2.symm.trans hev') (by decide)⟩
      refine dispatchJson_ok isoparse p s _ _ ?_
      rw [processEvent_dispatch_created isoparse p s cd hcd h2,
        handleSubscriptionCreated_no_plan isoparse (payloadAttrs p) s _ fsi hfsio hplan]
    | some plan =>
      cases hu : find_user s.users cd.user_id (payloadAttrs p).customer_id
          (payloadAttrs p).user_email with
      | none =>
        refine ⟨.err "User not found", s, ?_,
          fun _ => ⟨fun _ => rfl, fun _ => rfl⟩,
          fun fsi' hev' => absurd (h2.symm.trans hev') (by decide),
          fun hev' => absurd (h2.symm.trans hev') (by decide),
          fun hev' => absurd (h2.symm.trans hev') (by decide),
          fun hev' => absurd (h2.symm.trans hev') (by decide)⟩
        refine dispatchJson_ok isoparse p s _ _ ?_
        rw [processEvent_dispatch_created isoparse p s cd hcd h2, hu,
          handleSubscriptionCreated_no_user isoparse (payloadAttrs p) s fsi plan
            hfsio hplan]
      | some user =>
        cases hsub : s.subs.find? (fun sb => sb.user_id == user.id) with
        | none =>
          have hpe := processEvent_dispatch_created isoparse p s cd hcd h2
          rw [hu, handleSubscriptionCreated_insert isoparse (payloadAttrs p) s fsi plan
            user hfsio hplan hsub] at hpe
          exact ⟨.ok, _, dispatchJson_ok isoparse p s _ _ hpe,
            fun _ => ⟨fun hpn => absurd hpn (by simp), fun hun => absurd hun (by simp)⟩,
            fun fsi' hev' => absurd (h2.symm.trans hev') (by decide),
            fun hev' => absurd (h2.symm.trans hev') (by decide),
            fun hev' => absurd (h2.symm.trans hev') (by decide),
            fun hev' => absurd (h2.symm.trans hev') (by decide)⟩
        | some x =>
          have hpe := processEvent_dispatch_created isoparse p s cd hcd h2
          rw [hu, handleSubscriptionCreated_update isoparse (payloadAttrs p) s fsi plan
            user x hfsio hplan hsub] at hpe
          exact ⟨.ok, _, dispatchJson_ok isoparse p s _ _ hpe,
            fun _ => ⟨fun hpn => absurd hpn (by simp), fun hun => absurd hun (by simp)⟩,
            fun fsi' hev' => absurd (h2.symm.trans hev') (by decide),
            fun hev' => absurd (h2.symm.trans hev') (by decide),
            fun hev' => absurd (h2.symm.trans hev') (by decide),
            fun hev' => absurd (h2.symm.trans hev') (by decide)⟩
  by_cases h3 : payloadEventName p = some "subscription_payment_success"
  · exact ⟨.ok, _, dispatchJson_ok isoparse p s _ _
      (payment_step isoparse p cd h3 hcd s),
      fun hev' => absurd (h3.symm.trans hev') (by decide),
      fun fsi hev' => absurd (h3.symm.trans hev') (by decide),
      fun hev' => absurd (h3.symm.trans hev') (by decide),
      fun hev' => absurd (h3.symm.trans hev') (by decide),
      fun hev' => absurd (h3.symm.trans hev') (by decide)⟩
  by_cases h4 : payloadEventName p = some "subscription_updated"
  · obtain ⟨fsi, hfsio⟩ := Option.ne_none_iff_exists'.mp (hfsi_u h4)
    cases hlook : lookupSubscription s.subs fsi.subscription_id with
    | none =>
      refine ⟨.ok, s, ?_,
        fun hev' => absurd (h4.symm.trans hev') (by decide),
        fun fsi' hev' hfsio' hlook' => rfl,
        fun hev' => absurd (h4.symm.trans hev') (by decide),
        fun hev' => absurd (h4.symm.trans hev') (by decide),
        fun hev' => absurd (h4.symm.trans hev') (by decide)⟩
      refine dispatchJson_ok isoparse p s _ _ ?_
      rw [processEvent_dispatch_updated isoparse p s cd hcd h4,
        handleSubscriptionUpdated_not_found isoparse (payloadAttrs p) s fsi hfsio hlook]
    | some x =>
      have hpe := processEvent_dispatch_updated isoparse p s cd hcd h4
      rw [handleSubscriptionUpdated_found isoparse (payloadAttrs p) s fsi x
        hfsio hlook] at hpe
      refine ⟨.ok, _, dispatchJson_ok isoparse p s _ _ hpe,
        fun hev' => absurd (h4.symm.trans hev') (by decide),
        ?_,
        fun hev' => absurd (h4.symm.trans hev') (by decide),
        fun hev' => absurd (h4.symm.trans hev') (by decide),
        fun hev' => absurd (h4.symm.trans hev') (by decide)⟩
      intro fsi' hev' hfsio' hlook'
      injection hfsio.symm.trans hfsio' with hfe
      rw [← hfe] at hlook'
      rw [hlook] at hlook'
      exact absurd hlook' (by simp)
  by_cases h5 : payloadEventName p = some "subscription_cancelled"
  · cases hlook : lookupSubscription s.subs
        (pyOr (payloadAttrs p).id (payloadAttrs p).subscription_id) with
    | none =>
      refine ⟨.ok, s, ?_,
        fun hev' => absurd (h5.symm.trans hev') (by decide),
        fun fsi' hev' => absurd (h5.symm.trans hev') (by decide),
        fun _ _ => rfl,
        fun hev' => absurd (h5.symm.trans hev') (by decide),
        fun hev' => absurd (h5.symm.trans hev') (by decide)⟩
      refine dispatchJson_ok isoparse p s _ _ ?_
      rw [processEvent_dispatch_cancelled isoparse p s cd hcd h5,
        handleStatusEvent_not_found s _ _ hlook]
    | some x =>
      have hpe := processEvent_dispatch_cancelled isoparse p s cd hcd h5
      rw [handleStatusEvent_found s _ _ x hlook] at hpe
      exact ⟨.ok, _, dispatchJson_ok isoparse p s _ _ hpe,
        fun hev' => absurd (h5.symm.trans hev') (by decide),
        fun fsi' hev' => absurd (h5.symm.trans hev') (by decide),
        fun _ hlook' => absurd hlook' (by simp),
        fun hev' => absurd (h5.symm.trans hev') (by decide),
        fun hev' => absurd (h5.symm.trans hev') (by decide)⟩
  by_cases h6 : payloadEventName p = some "subscription_expired"
  · cases hlook : lookupSubscription s.subs
        (pyOr (payloadAttrs p).id (payloadAttrs p).subscription_id) with
    | none =>
      refine ⟨.ok, s, ?_,
        fun hev' => absurd (h6.symm.trans hev') (by decide),
        fun fsi' hev' => absurd (h6.symm.trans hev') (by decide),
        fun hev' => absurd (h6.symm.trans hev') (by decide),
        fun _ _ => rfl,
        fun hev' => absurd (h6.symm.trans hev') (by decide)⟩
      refine dispatchJson_ok isoparse p s _ _ ?_
      rw [processEvent_dispatch_expired isoparse p s cd hcd h6,
        handleStatusEvent_not_found s _ _ hlook]
    | some x =>
      have hpe := processEvent_dispatch_expired isoparse p s cd hcd h6
      rw [handleStatusEvent_found s _ _ x hlook] at hpe
      exact ⟨.ok, _, dispatchJson_ok isoparse p s _ _ hpe,
        fun hev' => absurd (h6.symm.trans hev') (by decide),
        fun fsi' hev' => absurd (h6.symm.trans hev') (by decide),
        fun hev' => absurd (h6.symm.trans hev') (by decide),
        fun _ hlook' => absurd hlook' (by simp),
        fun hev' => absurd (h6.symm.trans hev') (by decide)⟩
  by_cases h7 : payloadEventName p = some "subscription_payment_failed"
  · cases hlook : lookupSubscription s.subs (payloadAttrs p).subscription_id with
    | none =>
      refine ⟨.ok, s, ?_,
        fun hev' => absurd (h7.symm.trans hev') (by decide),
        fun fsi' hev' => absurd (h7.symm.trans hev') (by decide),
        fun hev' => absurd (h7.symm.trans hev') (by decide),
        fun hev' => absurd (h7.symm.trans hev') (by decide),
        fun _ _ => rfl⟩
      refine dispatchJson_ok isoparse p s _ _ ?_
      rw [processEvent_dispatch_payment_failed isoparse p s cd hcd h7,
        handleStatusEvent_not_found s _ _ hlook]
    | some x =>
      have hpe := processEvent_dispatch_payment_failed isoparse p s cd hcd h7
      rw [handleStatusEvent_found s _ _ x hlook] at hpe
      exact ⟨.ok, _, dispatchJson_ok isoparse p s _ _ hpe,
        fun hev' => absurd (h7.symm.trans hev') (by decide),
        fun fsi' hev' => absurd (h7.symm.trans hev') (by decide),
        fun hev' => absurd (h7.symm.trans hev') (by decide),
        fun hev' => absurd (h7.symm.trans hev') (by decide),
        fun _ hlook' => absurd hlook' (by simp)⟩
  · refine ⟨.ignored, s, ?_,
      fun hev' => absurd hev' h2,
      fun fsi' hev' => absurd hev' h4,
      fun hev' => absurd hev' h5,
      fun hev' => absurd hev' h6,
      fun hev' => absurd hev' h7⟩
    refine dispatchJson_ok isoparse p s _ _ ?_
    refine processEvent_dispatch_unknown isoparse p s cd hcd ?_
    intro e he
    simp only [List.mem_cons, List.not_mem_nil, or_false] at he
    rcases he with rfl | rfl | rfl | rfl | rfl | rfl | rfl <;> assumption

/-- Witness for C3: a correctly signed `subscription_updated` request whose
subscription id matches nothing is acknowledged with 200 and changes
nothing. -/
theorem webhook_acks_and_soft_skips_witness :
    ∃ r s', lemonsqueezy_webhook (some "sec") hmacTest isoparseNone
      { signature := some (hmacTest "sec" "bw"), rawBody := "bw",
        json := some payloadUpdUnknown } storeW = .http200 r s'
      ∧ (∀ fsi, payloadEventName payloadUpdUnknown = some "subscription_updated" →
          (payloadAttrs payloadUpdUnknown).first_subscription_item = some fsi →
          lookupSubscription storeW.subs fsi.subscription_id = none → s' = storeW) := by
  obtain ⟨r, s', hrun, -, hupd, -, -, -⟩ := webhook_acks_and_soft_skips (some "sec")
    hmacTest isoparseNone
    { signature := some (hmacTest "sec" "bw"), rawBody := "bw",
      json := some payloadUpdUnknown } storeW payloadUpdUnknown { user_id := none }
    (by decide) (by decide) (by decide) rfl rfl
    (by intro h; exact absurd h (by decide)) (by intro h hn; exact absurd hn (by decide))
  exact ⟨r, s', hrun, hupd⟩

end Checkout
